import Mathlib

/-!
# rag-chat-bot: retrieval-augmented chat pipeline

A shallow embedding of the Go packages `internal/model`, `internal/embedding`,
`internal/database`, `internal/rag`, `internal/service` and of the chat handler of
`internal/api`.

Conventions of the embedding:

* Go `int` is `Int`; Go `error` is a `String` carrying the error text;
  a Go function returning `(T, error)` returns `Except String T`.
* Every function that touches the database or a remote endpoint takes the
  world `w : World` and returns the world after the call.  The world holds the
  database tables, a counter of the external operations issued so far and a
  ghost trace of the calls made (used only to state "is called" / "is never
  called").
* What the outside answers is fixed by an environment `env : Env`: whether
  the external operation number `n` fails, what the remote endpoints answer,
  and the library functions that are not part of this repository
  (`json.Unmarshal`, `fmt.Sprintf` on floats, the `<=>` operator of pgvector).
* `created_at` is filled by the database; it is modelled by a logical clock
  that advances at every insert.
-/

namespace RagChatBot

/-! ## internal/model -/

/-- An IEEE-754 single precision value, kept by its bit pattern: the core never
computes on the components of an embedding. -/
structure Float32 where
  bits : Nat
deriving DecidableEq, Repr

/-- The metadata mapping of a document (`map[string]interface{}`), opaque here. -/
abbrev Metadata := List (String × String)

/-- The Go struct `model.Document`. -/
structure Document where
  ID : Int
  Title : String
  Content : String
  Metadata : Metadata
  CreatedAt : Nat
deriving DecidableEq, Repr

/-- The Go struct `model.DocumentWithScore` (embedded `Document` plus `Score`). -/
structure DocumentWithScore where
  ID : Int
  Title : String
  Content : String
  Metadata : Metadata
  CreatedAt : Nat
  Score : Rat
deriving DecidableEq, Repr

/-- The Go struct `model.Message`. -/
structure Message where
  ID : Int
  ConversationID : Int
  Role : String
  Content : String
  CreatedAt : Nat
deriving DecidableEq, Repr

/-- The Go struct `model.ChatMessage`. -/
structure ChatMessage where
  Role : String
  Content : String
deriving DecidableEq, Repr

/-- The Go struct `model.ChatRequest`. -/
structure ChatRequest where
  SessionID : String
  Message : String
deriving DecidableEq, Repr

/-- The Go struct `model.ChatResponse`. -/
structure ChatResponse where
  Success : Bool
  Message : String
  SessionID : String
deriving DecidableEq, Repr

/-! ## internal/embedding: types -/

/-- The Go struct `embedding.OpenAIEmbedding`. -/
structure OpenAIEmbedding where
  apiKey : String
  embeddingModel : String
  chatModel : String
deriving DecidableEq, Repr

/-- The Go struct `embedding.ChatCompletionMessage`. -/
structure ChatCompletionMessage where
  Role : String
  Content : String
deriving DecidableEq, Repr

/-- What `client.Do` followed by `ioutil.ReadAll` can produce. -/
inductive HttpOutcome where
  | sendError (err : String)
  | readError (err : String)
  | response (statusCode : Nat) (body : String)
deriving DecidableEq, Repr

/-! ## The database state -/

/-- A row of table `documents`. -/
structure DocumentRow where
  id : Int
  title : String
  content : String
  metadata : Metadata
  createdAt : Nat
deriving DecidableEq, Repr

/-- A row of table `document_embeddings`: the vector is kept as the literal the
code sent (`$2::vector`). -/
structure EmbeddingRow where
  documentId : Int
  embedding : String
deriving DecidableEq, Repr

/-- A row of table `conversations`. -/
structure ConversationRow where
  id : Int
  sessionId : String
  createdAt : Nat
deriving DecidableEq, Repr

/-- A row of table `messages`. -/
structure MessageRow where
  id : Int
  conversationId : Int
  role : String
  content : String
  createdAt : Nat
deriving DecidableEq, Repr

/-- The tables behind `PostgresDB`, the serial counters of their `id` columns
and the logical clock that fills `created_at`. -/
structure Store where
  documents : List DocumentRow
  embeddings : List EmbeddingRow
  conversations : List ConversationRow
  messages : List MessageRow
  docSeq : Int
  convSeq : Int
  msgSeq : Int
  clock : Nat
deriving DecidableEq, Repr

/-- The empty database. -/
def Store.empty : Store :=
  { documents := [], embeddings := [], conversations := [], messages := [],
    docSeq := 1, convSeq := 1, msgSeq := 1, clock := 0 }

/-! ## Ghost trace of calls -/

/-- One entry per call of a function the specification talks about. -/
inductive Event where
  | createEmbedding (text : String)
  | chatCompletion (messages : List ChatCompletionMessage)
  | saveDocument (title content : String)
  | saveEmbedding (docID : Int) (embedding : List Float32)
  | findSimilarDocuments (queryEmbedding : List Float32) (limit : Int)
  | saveConversation (sessionID : String)
  | saveMessage (conversationID : Int) (role content : String)
  | getConversationMessages (conversationID : Int)
  | getConversationBySessionID (sessionID : String)
  | generateResponseFromContext (userQuery : String) (history : List ChatMessage)
  | log (msg : String)
deriving DecidableEq, Repr

/-- The world a call runs in. -/
structure World where
  db : Store
  ops : Nat
  trace : List Event
deriving DecidableEq, Repr

/-- The world over an empty database, before any call. -/
def World.init : World := { db := Store.empty, ops := 0, trace := [] }

/-- Record a call. -/
def World.emit (w : World) (e : Event) : World :=
  { w with trace := w.trace ++ [e] }

/-- One external operation has been issued. -/
def World.tick (w : World) : World :=
  { w with ops := w.ops + 1 }

/-- Replace the database. -/
def World.setDb (w : World) (db : Store) : World :=
  { w with db := db }

/-- The outside of the program. -/
structure Env where
  /-- Whether the database operation issued as external operation `n` fails,
  and with which error. -/
  dbFault : Nat → Option String
  /-- Answer of `POST /v1/embeddings` to external operation `n`, given the
  bearer key, the model and the input list. -/
  embeddingEndpoint : Nat → String → String → List String → HttpOutcome
  /-- Answer of `POST /v1/chat/completions` to external operation `n`. -/
  chatEndpoint : Nat → String → String → List ChatCompletionMessage → HttpOutcome
  /-- Result of `json.Unmarshal` into `EmbeddingResponse`: the `Embedding` field of
  each entry of `Data`. -/
  unmarshalEmbedding : String → Except String (List (List Float32))
  /-- Result of `json.Unmarshal` into `ChatCompletionResponse`: the
  `Message.Content` field of each entry of `Choices`. -/
  unmarshalChat : String → Except String (List String)
  /-- The text `fmt.Sprintf("%f", v)`. -/
  fmtFloat : Float32 → String
  /-- The text `fmt.Sprintf("%.2f", x)`. -/
  fmtPercent : Rat → String
  /-- The operator `<=>` of pgvector on two vector literals. -/
  cosineDistance : String → String → Rat

/-! ## internal/embedding -/

/-- Go `OpenAIEmbedding.CreateEmbedding`.  The two first error returns of the Go
function are not modelled: `json.Marshal` of a struct of strings and
`http.NewRequestWithContext` on a constant method and URL do not fail. -/
def CreateEmbedding (env : Env) (o : OpenAIEmbedding) (w : World) (text : String) :
    Except String (List Float32) × World :=
  let w := w.emit (.createEmbedding text)
  let out := env.embeddingEndpoint w.ops o.apiKey o.embeddingModel [text]
  let w := w.tick
  match out with
  | .sendError e => (.error ("error sending request: " ++ e), w)
  | .readError e => (.error ("error reading response: " ++ e), w)
  | .response statusCode body =>
    if statusCode ≠ 200 then
      (.error ("OpenAI API error: " ++ body), w)
    else
      match env.unmarshalEmbedding body with
      | .error e => (.error ("error unmarshaling response: " ++ e), w)
      | .ok [] => (.error "no embedding returned", w)
      | .ok (d :: _) => (.ok d, w)

/-- Go `OpenAIEmbedding.ChatCompletion` (same remark on its two first error
returns). -/
def ChatCompletion (env : Env) (o : OpenAIEmbedding) (w : World)
    (messages : List ChatCompletionMessage) : Except String String × World :=
  let w := w.emit (.chatCompletion messages)
  let out := env.chatEndpoint w.ops o.apiKey o.chatModel messages
  let w := w.tick
  match out with
  | .sendError e => (.error ("error sending request: " ++ e), w)
  | .readError e => (.error ("error reading response: " ++ e), w)
  | .response statusCode body =>
    if statusCode ≠ 200 then
      (.error ("OpenAI API error: " ++ body), w)
    else
      match env.unmarshalChat body with
      | .error e => (.error ("error unmarshaling response: " ++ e), w)
      | .ok [] => (.error "no completion returned", w)
      | .ok (c :: _) => (.ok c, w)

/-! ## internal/database -/

/-- The loop that renders a `[]float32` as a vector literal, without the
brackets: `i` is the loop index, `acc` the text built so far. -/
def vectorStrLoop (env : Env) : Nat → List Float32 → String → String
  | _, [], acc => acc
  | i, v :: vs, acc =>
    vectorStrLoop env (i + 1) vs ((if i > 0 then acc ++ "," else acc) ++ env.fmtFloat v)

/-- The text `vectorStr` built by `SaveEmbedding` and `FindSimilarDocuments`. -/
def vectorStr (env : Env) (embedding : List Float32) : String :=
  vectorStrLoop env 0 embedding "[" ++ "]"

/-- Go `PostgresDB.SaveDocument`: begin, insert returning the id, commit; the
deferred rollback runs when the insert or the commit failed. -/
def SaveDocument (env : Env) (w : World) (doc : Document) : Except String Int × World :=
  let w := w.emit (.saveDocument doc.Title doc.Content)
  -- tx, err := db.pool.Begin(ctx)
  match env.dbFault w.ops with
  | some e => (.error ("error starting transaction: " ++ e), w.tick)
  | none =>
    let w := w.tick
    -- INSERT INTO documents ... RETURNING id
    match env.dbFault w.ops with
    | some e =>
      -- deferred tx.Rollback
      (.error ("error inserting document: " ++ e), w.tick.tick)
    | none =>
      let w := w.tick
      let docID := w.db.docSeq
      let row : DocumentRow :=
        { id := docID, title := doc.Title, content := doc.Content,
          metadata := doc.Metadata, createdAt := w.db.clock }
      -- tx.Commit
      match env.dbFault w.ops with
      | some e =>
        -- deferred tx.Rollback: the row is dropped, the serial stays consumed
        (.error ("error committing transaction: " ++ e),
          (w.setDb { w.db with docSeq := w.db.docSeq + 1 }).tick.tick)
      | none =>
        (.ok docID,
          (w.setDb { w.db with
            documents := w.db.documents ++ [row],
            docSeq := w.db.docSeq + 1,
            clock := w.db.clock + 1 }).tick)

/-- Go `PostgresDB.SaveEmbedding`. -/
def SaveEmbedding (env : Env) (w : World) (docID : Int) (embedding : List Float32) :
    Except String Unit × World :=
  let w := w.emit (.saveEmbedding docID embedding)
  let vs := vectorStr env embedding
  match env.dbFault w.ops with
  | some e => (.error ("error inserting embedding: " ++ e), w.tick)
  | none =>
    (.ok (),
      (w.setDb { w.db with
        embeddings := w.db.embeddings ++ [{ documentId := docID, embedding := vs }] }).tick)

/-- The rows of `document_embeddings e JOIN documents d ON e.document_id = d.id`,
each with its distance `e.embedding <=> $1::vector`. -/
def joinEmbeddings (env : Env) (db : Store) (vs : String) : List (DocumentRow × Rat) :=
  db.embeddings.flatMap fun e =>
    (db.documents.filter fun d => e.documentId = d.id).map fun d =>
      (d, env.cosineDistance e.embedding vs)

/-- The rows `ORDER BY e.embedding <=> $1::vector LIMIT $2`; rows at the same
distance keep the order of the join. -/
def similarRows (env : Env) (db : Store) (vs : String) (limit : Nat) :
    List (DocumentRow × Rat) :=
  ((joinEmbeddings env db vs).insertionSort fun a b => a.2 ≤ b.2).take limit

/-- The `for rows.Next()` loop of `FindSimilarDocuments`: each `rows.Scan` is an
external operation that may fail; `results` is the slice built so far. -/
def scanDocuments (env : Env) :
    List (DocumentRow × Rat) → World → List DocumentWithScore →
      Except String (List DocumentWithScore) × World
  | [], w, results => (.ok results, w)
  | (d, dist) :: rest, w, results =>
    match env.dbFault w.ops with
    | some e => (.error ("error scanning document row: " ++ e), w.tick)
    | none =>
      let doc : DocumentWithScore :=
        { ID := d.id, Title := d.title, Content := d.content, Metadata := [],
          CreatedAt := 0, Score := 1 - dist }
      scanDocuments env rest w.tick (results ++ [doc])

/-- Go `PostgresDB.FindSimilarDocuments`. -/
def FindSimilarDocuments (env : Env) (w : World) (queryEmbedding : List Float32)
    (limit : Int) : Except String (List DocumentWithScore) × World :=
  let w := w.emit (.findSimilarDocuments queryEmbedding limit)
  let vs := vectorStr env queryEmbedding
  match env.dbFault w.ops with
  | some e => (.error ("error querying similar documents: " ++ e), w.tick)
  | none =>
    let w := w.tick
    if limit < 0 then
      (.error ("error querying similar documents: " ++ "LIMIT must not be negative"), w)
    else
      match scanDocuments env (similarRows env w.db vs limit.toNat) w [] with
      | (.error e, w) => (.error e, w)
      | (.ok results, w) =>
        -- rows.Err()
        match env.dbFault w.ops with
        | some e => (.error ("error iterating rows: " ++ e), w.tick)
        | none => (.ok results, w.tick)

/-- Go `PostgresDB.SaveConversation`. -/
def SaveConversation (env : Env) (w : World) (sessionID : String) :
    Except String Int × World :=
  let w := w.emit (.saveConversation sessionID)
  match env.dbFault w.ops with
  | some e => (.error ("error creating conversation: " ++ e), w.tick)
  | none =>
    let conversationID := w.db.convSeq
    (.ok conversationID,
      (w.setDb { w.db with
        conversations := w.db.conversations ++
          [{ id := conversationID, sessionId := sessionID, createdAt := w.db.clock }],
        convSeq := w.db.convSeq + 1,
        clock := w.db.clock + 1 }).tick)

/-- Go `PostgresDB.SaveMessage`. -/
def SaveMessage (env : Env) (w : World) (msg : Message) : Except String Unit × World :=
  let w := w.emit (.saveMessage msg.ConversationID msg.Role msg.Content)
  match env.dbFault w.ops with
  | some e => (.error ("error saving message: " ++ e), w.tick)
  | none =>
    (.ok (),
      (w.setDb { w.db with
        messages := w.db.messages ++
          [{ id := w.db.msgSeq, conversationId := msg.ConversationID, role := msg.Role,
             content := msg.Content, createdAt := w.db.clock }],
        msgSeq := w.db.msgSeq + 1,
        clock := w.db.clock + 1 }).tick)

/-- The rows `FROM messages WHERE conversation_id = $1 ORDER BY created_at ASC`;
rows with the same `created_at` keep the order of the table. -/
def conversationRows (db : Store) (conversationID : Int) : List MessageRow :=
  (db.messages.filter fun m => m.conversationId = conversationID).insertionSort
    fun a b => a.createdAt ≤ b.createdAt

/-- The `model.Message` that `rows.Scan` fills from a row of `messages`. -/
def scanMessage (m : MessageRow) : Message :=
  { ID := m.id, ConversationID := m.conversationId, Role := m.role,
    Content := m.content, CreatedAt := m.createdAt }

/-- The `for rows.Next()` loop of `GetConversationMessages`. -/
def scanMessages (env : Env) :
    List MessageRow → World → List Message → Except String (List Message) × World
  | [], w, messages => (.ok messages, w)
  | m :: rest, w, messages =>
    match env.dbFault w.ops with
    | some e => (.error ("error scanning message row: " ++ e), w.tick)
    | none => scanMessages env rest w.tick (messages ++ [scanMessage m])

/-- Go `PostgresDB.GetConversationMessages`. -/
def GetConversationMessages (env : Env) (w : World) (conversationID : Int) :
    Except String (List Message) × World :=
  let w := w.emit (.getConversationMessages conversationID)
  match env.dbFault w.ops with
  | some e => (.error ("error querying conversation messages: " ++ e), w.tick)
  | none =>
    match scanMessages env (conversationRows w.db conversationID) w.tick [] with
    | (.error e, w) => (.error e, w)
    | (.ok messages, w) =>
      -- rows.Err()
      match env.dbFault w.ops with
      | some e => (.error ("error iterating rows: " ++ e), w.tick)
      | none => (.ok messages, w.tick)

/-- The row `FROM conversations WHERE session_id = $1 ORDER BY created_at DESC
LIMIT 1`, if there is one. -/
def latestConversation (db : Store) (sessionID : String) : Option ConversationRow :=
  ((db.conversations.filter fun c => c.sessionId = sessionID).insertionSort
    fun a b => b.createdAt ≤ a.createdAt).head?

/-- Go `PostgresDB.GetConversationBySessionID`: an injected fault is an error
other than `ErrNoRows`; `ErrNoRows` is the case of no matching row. -/
def GetConversationBySessionID (env : Env) (w : World) (sessionID : String) :
    Except String Int × World :=
  let w := w.emit (.getConversationBySessionID sessionID)
  match env.dbFault w.ops with
  | some e => (.error ("error finding conversation: " ++ e), w.tick)
  | none =>
    match latestConversation w.db sessionID with
    | none => SaveConversation env w.tick sessionID
    | some c => (.ok c.id, w.tick)

/-! ## internal/rag -/

/-- The Go struct `rag.Retriever` (its `db` is the world). -/
structure Retriever where
  embeddingAPI : OpenAIEmbedding
  maxResults : Int
deriving DecidableEq, Repr

/-- Go `rag.NewRetriever`. -/
def NewRetriever (embeddingAPI : OpenAIEmbedding) (maxResults : Int) : Retriever :=
  { embeddingAPI := embeddingAPI,
    maxResults := if maxResults ≤ 0 then 5 else maxResults }

/-- The embedding dimension `RetrieveRelevantDocuments` checks against. -/
def embeddingDimension : Nat := 1536

/-- Go `Retriever.RetrieveRelevantDocuments`. -/
def RetrieveRelevantDocuments (env : Env) (r : Retriever) (w : World) (query : String) :
    Except String (List DocumentWithScore) × World :=
  match CreateEmbedding env r.embeddingAPI w query with
  | (.error err, w) => (.error ("error creating query embedding: " ++ err), w)
  | (.ok queryEmbedding, w) =>
    if queryEmbedding.length ≠ embeddingDimension then
      (.error ("invalid embedding dimension: expected 1536, got " ++
        toString queryEmbedding.length), w)
    else
      match FindSimilarDocuments env w queryEmbedding r.maxResults with
      | (.error err, w) => (.error ("error finding similar documents: " ++ err), w)
      | (.ok docs, w) => (.ok docs, w)

/-- The `for i, doc := range relevantDocs` loop of `BuildPromptWithContext`:
`i` is the loop index, `acc` the content of `contextBuilder` so far. -/
def contextLoop (env : Env) : Nat → List DocumentWithScore → String → String
  | _, [], acc => acc
  | i, doc :: rest, acc =>
    contextLoop env (i + 1) rest
      (acc
        ++ ("[Dokumen " ++ toString (i + 1) ++ "] (Relevansi: "
              ++ env.fmtPercent (doc.Score * 100) ++ "%)\n")
        ++ ("Judul: " ++ doc.Title ++ "\n")
        ++ ("Konten: " ++ doc.Content ++ "\n\n"))

/-- The text of `promptTemplate` before the first `%s`. -/
def promptHead : String :=
  "Anda adalah asisten AI yang membantu pengguna dengan informasi berdasarkan dokumen yang tersedia. \n"
  ++ "Tugas Anda adalah memberikan jawaban yang akurat, informatif, dan relevan berdasarkan informasi yang diberikan.\n"
  ++ "\n"

/-- The text of `promptTemplate` between the two `%s`. -/
def promptMiddle : String :=
  "\n\nPERTANYAAN/PERMINTAAN PENGGUNA:\n"

/-- The text of `promptTemplate` after the second `%s`. -/
def promptTail : String :=
  "\n\nPANDUAN JAWABAN:\n"
  ++ "1. Berikan jawaban yang akurat dan relevan berdasarkan informasi yang tersedia\n"
  ++ "2. Jika informasi tidak cukup, jelaskan keterbatasan dan sarankan apa yang mungkin bisa membantu\n"
  ++ "3. Gunakan bahasa yang jelas dan mudah dipahami\n"
  ++ "4. Jika ada informasi yang bertentangan, jelaskan perbedaannya\n"
  ++ "5. Berikan sumber informasi yang digunakan (dokumen mana yang menjadi referensi)\n"
  ++ "\n"
  ++ "Jawaban Anda harus:\n"
  ++ "- Langsung menjawab pertanyaan/permintaan pengguna\n"
  ++ "- Menggunakan informasi dari dokumen yang relevan\n"
  ++ "- Jelas dan terstruktur\n"
  ++ "- Jujur tentang keterbatasan informasi yang tersedia\n"
  ++ "\n"
  ++ "Silakan berikan jawaban Anda:"

/-- The prompt rendered from the retrieved documents and the query. -/
def renderPrompt (env : Env) (relevantDocs : List DocumentWithScore) (userQuery : String) :
    String :=
  promptHead ++ contextLoop env 0 relevantDocs "INFORMASI KONTEKS:\n\n"
    ++ promptMiddle ++ userQuery ++ promptTail

/-- Go `Retriever.BuildPromptWithContext`. -/
def BuildPromptWithContext (env : Env) (r : Retriever) (w : World) (userQuery : String) :
    Except String String × World :=
  match RetrieveRelevantDocuments env r w userQuery with
  | (.error err, w) => (.error ("error retrieving relevant documents: " ++ err), w)
  | (.ok relevantDocs, w) =>
    if relevantDocs.length = 0 then
      (.error "no relevant documents found", w)
    else
      (.ok (renderPrompt env relevantDocs userQuery), w)

/-- The reply of `GenerateResponseFromContext` when no prompt could be built. -/
def fallbackReply : String :=
  "Saya tidak dapat menemukan informasi yang relevan untuk pertanyaan Anda. Bisakah Anda memberikan lebih banyak detail atau menanyakan hal lain?"

/-- The system message `systemPrompt` of `GenerateResponseFromContext`. -/
def systemPrompt : ChatCompletionMessage :=
  { Role := "system",
    Content := "Anda adalah asisten AI yang membantu pengguna dengan informasi berdasarkan dokumen yang tersedia." }

/-- The `for _, msg := range conversationHistory` loop of
`GenerateResponseFromContext`, appending to `messages`. -/
def appendHistory : List ChatMessage → List ChatCompletionMessage → List ChatCompletionMessage
  | [], messages => messages
  | msg :: rest, messages =>
    appendHistory rest (messages ++ [{ Role := msg.Role, Content := msg.Content }])

/-- The slice `messages` that `GenerateResponseFromContext` hands to
`ChatCompletion`, for the prompt `contextPrompt`. -/
def completionMessages (conversationHistory : List ChatMessage) (contextPrompt : String) :
    List ChatCompletionMessage :=
  appendHistory conversationHistory ([] ++ [systemPrompt])
    ++ [{ Role := "user", Content := contextPrompt }]

/-- Go `Retriever.GenerateResponseFromContext`. -/
def GenerateResponseFromContext (env : Env) (r : Retriever) (w : World) (userQuery : String)
    (conversationHistory : List ChatMessage) : Except String String × World :=
  let w := w.emit (.generateResponseFromContext userQuery conversationHistory)
  match BuildPromptWithContext env r w userQuery with
  | (.error err, w) =>
    (.ok fallbackReply, w.emit (.log ("Error building prompt: " ++ err)))
  | (.ok contextPrompt, w) =>
    match ChatCompletion env r.embeddingAPI w
        (completionMessages conversationHistory contextPrompt) with
    | (.error err, w) => (.error ("error generating response: " ++ err), w)
    | (.ok response, w) => (.ok response, w)

/-- Go `Processor.ProcessDocument` (the processor holds the same
`embeddingAPI` client). -/
def ProcessDocument (env : Env) (embeddingAPI : OpenAIEmbedding) (w : World)
    (doc : Document) : Except String Int × World :=
  match SaveDocument env w doc with
  | (.error err, w) => (.error ("error saving document: " ++ err), w)
  | (.ok docID, w) =>
    match CreateEmbedding env embeddingAPI w doc.Content with
    | (.error err, w) => (.error ("error creating embedding: " ++ err), w)
    | (.ok embedding, w) =>
      match SaveEmbedding env w docID embedding with
      | (.error err, w) => (.error ("error saving embedding: " ++ err), w)
      | (.ok (), w) => (.ok docID, w)

/-! ## internal/service -/

/-- The reply `ProcessUserMessage` substitutes when generation failed. -/
def genericReply : String :=
  "Maaf, saya mengalami kesulitan dalam memproses permintaan Anda. Silakan coba lagi atau tanyakan dengan cara yang berbeda."

/-- The conversion loop of `ProcessUserMessage` from `model.Message` to
`model.ChatMessage`, appending to `chatMessages`. -/
def toChatMessages : List Message → List ChatMessage → List ChatMessage
  | [], chatMessages => chatMessages
  | msg :: rest, chatMessages =>
    toChatMessages rest (chatMessages ++ [{ Role := msg.Role, Content := msg.Content }])

/-- Go `ChatService.ProcessUserMessage`. -/
def ProcessUserMessage (env : Env) (r : Retriever) (w : World) (req : ChatRequest) :
    Except String ChatResponse × World :=
  match GetConversationBySessionID env w req.SessionID with
  | (.error err, w) => (.error ("error getting conversation: " ++ err), w)
  | (.ok conversationID, w) =>
    let userMsg : Message :=
      { ID := 0, ConversationID := conversationID, Role := "user", Content := req.Message,
        CreatedAt := 0 }
    match SaveMessage env w userMsg with
    | (.error err, w) => (.error ("error saving user message: " ++ err), w)
    | (.ok (), w) =>
      match GetConversationMessages env w conversationID with
      | (.error err, w) => (.error ("error getting conversation history: " ++ err), w)
      | (.ok messages, w) =>
        let chatMessages := toChatMessages messages []
        let gen := GenerateResponseFromContext env r w req.Message chatMessages
        let w := gen.2
        let (response, w) :=
          match gen.1 with
          | .error err =>
            (genericReply,
              w.emit (.log ("Error generating response: " ++ err ++
                ", will return generic response")))
          | .ok response => (response, w)
        let assistantMsg : Message :=
          { ID := 0, ConversationID := conversationID, Role := "assistant",
            Content := response, CreatedAt := 0 }
        let w :=
          match SaveMessage env w assistantMsg with
          | (.error err, w) => w.emit (.log ("Error saving assistant message: " ++ err))
          | (.ok (), w) => w
        (.ok { Success := true, Message := response, SessionID := req.SessionID }, w)

/-- Go `ChatService.GetConversationHistory`. -/
def GetConversationHistory (env : Env) (w : World) (sessionID : String) :
    Except String (List Message) × World :=
  match GetConversationBySessionID env w sessionID with
  | (.error err, w) => (.error ("error getting conversation: " ++ err), w)
  | (.ok conversationID, w) =>
    match GetConversationMessages env w conversationID with
    | (.error err, w) => (.error ("error getting conversation messages: " ++ err), w)
    | (.ok messages, w) => (.ok messages, w)

/-! ## Observing the trace -/

/-- The calls recorded between world `w` and a later world `w2`. -/
def newEvents (w w2 : World) : List Event :=
  w2.trace.drop w.trace.length

/-- The number of calls satisfying `p` made between `w` and `w2`. -/
def callsOf (p : Event → Bool) (w w2 : World) : Nat :=
  ((newEvents w w2).filter p).length

/-- The call is a `ChatCompletion` call. -/
def isChatCompletion : Event → Bool
  | .chatCompletion _ => true
  | _ => false

/-- The call is a `CreateEmbedding` call. -/
def isCreateEmbedding : Event → Bool
  | .createEmbedding _ => true
  | _ => false

/-- The call is a `FindSimilarDocuments` call. -/
def isFindSimilarDocuments : Event → Bool
  | .findSimilarDocuments _ _ => true
  | _ => false

/-- The call is a `SaveEmbedding` call. -/
def isSaveEmbedding : Event → Bool
  | .saveEmbedding _ _ => true
  | _ => false

/-- The call is a `GenerateResponseFromContext` call. -/
def isGenerateResponseFromContext : Event → Bool
  | .generateResponseFromContext _ _ => true
  | _ => false

/-- The call is a `SaveMessage` call with role `assistant`. -/
def isSaveAssistantMessage : Event → Bool
  | .saveMessage _ role _ => role == "assistant"
  | _ => false

/-- Two worlds with the same database and operation counter: they differ at
most in the ghost trace. -/
def World.sameState (w w2 : World) : Prop :=
  w.db = w2.db ∧ w.ops = w2.ops

/-- Every stored message was stamped before the current clock value. -/
def Store.clockAhead (db : Store) : Prop :=
  ∀ m ∈ db.messages, m.createdAt < db.clock

instance (db : Store) : Decidable db.clockAhead :=
  inferInstanceAs (Decidable (∀ m ∈ db.messages, m.createdAt < db.clock))

/-! ## The stages of a turn -/

/-- The world after step 1 of `ProcessUserMessage` (conversation resolved). -/
def afterResolve (env : Env) (w : World) (req : ChatRequest) : World :=
  (GetConversationBySessionID env w req.SessionID).2

/-- The world after step 2 of `ProcessUserMessage` (user message appended to the
conversation `cid`). -/
def afterUserAppend (env : Env) (w : World) (req : ChatRequest) (cid : Int) : World :=
  (SaveMessage env (afterResolve env w req) ⟨0, cid, "user", req.Message, 0⟩).2

/-- The world after step 3 of `ProcessUserMessage` (history loaded). -/
def afterHistory (env : Env) (w : World) (req : ChatRequest) (cid : Int) : World :=
  (GetConversationMessages env (afterUserAppend env w req cid) cid).2

/-- The world after step 4 of `ProcessUserMessage` (reply generated from the loaded
messages `msgs`). -/
def afterGeneration (env : Env) (r : Retriever) (w : World) (req : ChatRequest) (cid : Int)
    (msgs : List Message) : World :=
  (GenerateResponseFromContext env r (afterHistory env w req cid) req.Message
    (toChatMessages msgs [])).2

/-! ## Sample inputs -/

/-- An environment for examples: the database operations numbered in `faults`
fail, the embedding endpoint answers with one vector of `dim` components, the
chat endpoint answers with status `chatStatus`. -/
def sampleEnv (faults : List Nat) (dim : Nat) (chatStatus : Nat) : Env :=
  { dbFault := fun n => if n ∈ faults then some "connection refused" else none,
    embeddingEndpoint := fun _ _ _ _ => .response 200 "embedding-body",
    chatEndpoint := fun _ _ _ _ => .response chatStatus "chat-body",
    unmarshalEmbedding := fun _ => .ok [List.replicate dim ⟨0⟩],
    unmarshalChat := fun _ => .ok ["Jawaban."],
    fmtFloat := fun _ => "0.000000",
    fmtPercent := fun _ => "90.00",
    cosineDistance := fun _ _ => 1 / 10 }

/-- The client used in the examples. -/
def sampleAPI : OpenAIEmbedding :=
  { apiKey := "key", embeddingModel := "text-embedding-ada-002", chatModel := "gpt-3.5-turbo" }

/-- The retriever used in the examples. -/
def sampleRetriever : Retriever := NewRetriever sampleAPI 0

/-- A database holding one document with its embedding. -/
def sampleStore : Store :=
  { documents := [{ id := 1, title := "Judul", content := "Isi", metadata := [], createdAt := 0 }],
    embeddings := [{ documentId := 1, embedding := "[0.000000]" }],
    conversations := [], messages := [],
    docSeq := 2, convSeq := 1, msgSeq := 1, clock := 1 }

/-- The world over `sampleStore`, before any call. -/
def sampleWorld : World := { db := sampleStore, ops := 0, trace := [] }

/-- The request used in the examples. -/
def sampleRequest : ChatRequest := { SessionID := "s1", Message := "Apa itu RAG?" }

/-- The document used in the examples. -/
def sampleDocument : Document :=
  { ID := 0, Title := "Judul", Content := "Isi", Metadata := [], CreatedAt := 0 }

/-- The document `FindSimilarDocuments` returns on `sampleStore` under `sampleEnv`. -/
def sampleScored : DocumentWithScore :=
  { ID := 1, Title := "Judul", Content := "Isi", Metadata := [], CreatedAt := 0,
    Score := 1 - 1 / 10 }

/-- The prompt built on `sampleStore` for the query of `sampleRequest`. -/
def samplePrompt : String :=
  renderPrompt (sampleEnv [] 1536 200) [sampleScored] "Apa itu RAG?"

/-- A database holding one embedded document and a conversation for session `s1`
with one earlier exchange. -/
def sampleStoreWithHistory : Store :=
  { documents := [{ id := 1, title := "Judul", content := "Isi", metadata := [], createdAt := 0 }],
    embeddings := [{ documentId := 1, embedding := "[0.000000]" }],
    conversations := [{ id := 1, sessionId := "s1", createdAt := 1 }],
    messages :=
      [{ id := 1, conversationId := 1, role := "user", content := "Halo", createdAt := 2 },
       { id := 2, conversationId := 1, role := "assistant", content := "Hai", createdAt := 3 }],
    docSeq := 2, convSeq := 2, msgSeq := 3, clock := 4 }

/-- The world over `sampleStoreWithHistory`, before any call. -/
def sampleWorldWithHistory : World := { db := sampleStoreWithHistory, ops := 0, trace := [] }

/-! ## Definitions for the similarity search -/

/-- The `model.DocumentWithScore` that `rows.Scan` fills from a row of the similarity
query: the columns of the document and `1 - distance`. -/
def scanDocument (row : DocumentRow × Rat) : DocumentWithScore :=
  { ID := row.1.id, Title := row.1.title, Content := row.1.content, Metadata := [],
    CreatedAt := 0, Score := 1 - row.2 }

/-- No database operation fails. -/
def Env.noFaults (env : Env) : Prop :=
  ∀ n, env.dbFault n = none

/-- An environment without faults in which the distance of a stored vector to the
query is read off the stored literal: `[a]` is at distance 0.1, `[b]` at 0.5 and
every other one at 0.9. -/
def sampleEnvDistances : Env :=
  { dbFault := fun _ => none,
    embeddingEndpoint := fun _ _ _ _ => .response 200 "embedding-body",
    chatEndpoint := fun _ _ _ _ => .response 200 "chat-body",
    unmarshalEmbedding := fun _ => .ok [[⟨0⟩]],
    unmarshalChat := fun _ => .ok ["Jawaban."],
    fmtFloat := fun _ => "0.000000",
    fmtPercent := fun _ => "90.00",
    cosineDistance := fun e _ =>
      if e = "[a]" then 1 / 10 else if e = "[b]" then 1 / 2 else 9 / 10 }

/-- A database of four documents: documents 1, 2 and 3 have an embedding (at
distances 0.5, 0.9 and 0.1 under `sampleEnvDistances`), document 4 has none. -/
def sampleStoreThree : Store :=
  { documents :=
      [{ id := 1, title := "B", content := "b", metadata := [], createdAt := 0 },
       { id := 2, title := "C", content := "c", metadata := [], createdAt := 1 },
       { id := 3, title := "A", content := "a", metadata := [], createdAt := 2 },
       { id := 4, title := "D", content := "d", metadata := [], createdAt := 3 }],
    embeddings :=
      [{ documentId := 1, embedding := "[b]" },
       { documentId := 2, embedding := "[c]" },
       { documentId := 3, embedding := "[a]" }],
    conversations := [], messages := [],
    docSeq := 5, convSeq := 1, msgSeq := 1, clock := 4 }

/-- The world over `sampleStoreThree`, before any call. -/
def sampleWorldThree : World := { db := sampleStoreThree, ops := 0, trace := [] }

/-- The call is a `SaveConversation` call. -/
def isSaveConversation : Event → Bool
  | .saveConversation _ => true
  | _ => false

/-- A database with one conversation, for session `s1`. -/
def sampleStoreOneSession : Store :=
  { documents := [], embeddings := [],
    conversations := [{ id := 7, sessionId := "s1", createdAt := 0 }],
    messages := [], docSeq := 1, convSeq := 8, msgSeq := 1, clock := 1 }

/-- The world over `sampleStoreOneSession`, before any call. -/
def sampleWorldOneSession : World := { db := sampleStoreOneSession, ops := 0, trace := [] }

/-- The database after the insert of `SaveConversation` for session `sessionID`. -/
def Store.addConversation (db : Store) (sessionID : String) : Store :=
  { db with
    conversations := db.conversations ++
      [{ id := db.convSeq, sessionId := sessionID, createdAt := db.clock }],
    convSeq := db.convSeq + 1,
    clock := db.clock + 1 }

/-- The database after the insert of `SaveMessage` for the message
`(conversationID, role, content)`. -/
def Store.addMessage (db : Store) (conversationID : Int) (role content : String) : Store :=
  { db with
    messages := db.messages ++
      [{ id := db.msgSeq, conversationId := conversationID, role := role,
         content := content, createdAt := db.clock }],
    msgSeq := db.msgSeq + 1,
    clock := db.clock + 1 }

/-! ## The prompt as the specification describes it -/

/-- The block of the document at 0-based position `i`: display index `i + 1`, the
score as a percentage, the title and the full content. -/
def documentBlock (env : Env) (i : Nat) (doc : DocumentWithScore) : String :=
  "[Dokumen " ++ toString (i + 1) ++ "] (Relevansi: "
    ++ env.fmtPercent (doc.Score * 100) ++ "%)\n"
    ++ "Judul: " ++ doc.Title ++ "\n"
    ++ "Konten: " ++ doc.Content ++ "\n\n"

/-- The blocks of the documents `docs`, in their order, the first one at position
`i`. -/
def documentBlocks (env : Env) : Nat → List DocumentWithScore → String
  | _, [] => ""
  | i, doc :: rest => documentBlock env i doc ++ documentBlocks env (i + 1) rest

/-- The fixed guidance text that follows the label `PANDUAN JAWABAN:`. -/
def guidanceText : String :=
  "\n"
  ++ "1. Berikan jawaban yang akurat dan relevan berdasarkan informasi yang tersedia\n"
  ++ "2. Jika informasi tidak cukup, jelaskan keterbatasan dan sarankan apa yang mungkin bisa membantu\n"
  ++ "3. Gunakan bahasa yang jelas dan mudah dipahami\n"
  ++ "4. Jika ada informasi yang bertentangan, jelaskan perbedaannya\n"
  ++ "5. Berikan sumber informasi yang digunakan (dokumen mana yang menjadi referensi)\n"
  ++ "\n"
  ++ "Jawaban Anda harus:\n"
  ++ "- Langsung menjawab pertanyaan/permintaan pengguna\n"
  ++ "- Menggunakan informasi dari dokumen yang relevan\n"
  ++ "- Jelas dan terstruktur\n"
  ++ "- Jujur tentang keterbatasan informasi yang tersedia\n"
  ++ "\n"
  ++ "Silakan berikan jawaban Anda:"

/-- The prompt in the words of the specification: the preamble, the context label,
one block per document in the retrieved order, the question label followed by the
query, the guidance label followed by the guidance text. -/
def specPrompt (env : Env) (docs : List DocumentWithScore) (userQuery : String) : String :=
  promptHead
    ++ ("INFORMASI KONTEKS:" ++ "\n\n" ++ documentBlocks env 0 docs)
    ++ ("\n\n" ++ "PERTANYAAN/PERMINTAAN PENGGUNA:" ++ "\n" ++ userQuery)
    ++ ("\n\n" ++ "PANDUAN JAWABAN:" ++ guidanceText)

/-- An environment whose embedding endpoint answers 429. -/
def sampleEnvRateLimited : Env :=
  { sampleEnv [] 1536 200 with
    embeddingEndpoint := fun _ _ _ _ => .response 429 "embedding-body" }

/-! ## internal/api -/

/-- The constant `letters` of `randString`. -/
def letters : String := "abcdefghijklmnopqrstuvwxyzABCDEFGHIJKLMNOPQRSTUVWXYZ0123456789"

/-- Go `randString` (for `n ≥ 0`; `make([]byte, n)` panics otherwise): byte `i` of
the result is `letters[i % len(letters)]`. -/
def randString (n : Nat) : String :=
  String.mk ((List.range n).map fun i => letters.toList.getD (i % letters.length) 'a')

/-- Go `generateSessionID`. -/
def generateSessionID : String :=
  "sess_" ++ randString 16

/-- What `HandleChat` writes to the `http.ResponseWriter`: `http.Error` with a
message and a status, or the JSON encoding of a `ChatResponse`. -/
inductive ChatReply where
  | error (msg : String) (statusCode : Nat)
  | json (resp : ChatResponse)
deriving DecidableEq, Repr

/-- Go `Handler.HandleChat`, for a request with method `method` whose body decodes
(`json.NewDecoder(r.Body).Decode`) to `decoded`. -/
def HandleChat (env : Env) (r : Retriever) (w : World) (method : String)
    (decoded : Except String ChatRequest) : ChatReply × World :=
  if method ≠ "POST" then
    (.error "Method not allowed" 405, w)
  else
    match decoded with
    | .error _ => (.error "Invalid request body" 400, w)
    | .ok req =>
      if req.Message = "" then
        (.error "Message cannot be empty" 400, w)
      else
        let req : ChatRequest :=
          if req.SessionID = "" then { req with SessionID := generateSessionID } else req
        match ProcessUserMessage env r w req with
        | (.error err, w) =>
          (.error "Error processing message" 500,
            w.emit (.log ("Error processing message: " ++ err)))
        | (.ok resp, w) => (.json resp, w)

/-! ## Definitions for the effect of a turn -/

/-- The reply of a turn, given the result of `GenerateResponseFromContext`: its text,
or the generic apology when it failed. -/
def replyOf (gres : Except String String) : String :=
  match gres with
  | .ok response => response
  | .error _ => genericReply

/-- The world after the `if err != nil` block that follows the call of
`GenerateResponseFromContext`: a failure is logged. -/
def logGenerationFailure (gres : Except String String) (w : World) : World :=
  match gres with
  | .ok _ => w
  | .error err =>
    w.emit (.log ("Error generating response: " ++ err ++ ", will return generic response"))

/-! ## Definitions for sequences of turns -/

/-- The role and content of a message. -/
def chatOf (m : Message) : ChatMessage :=
  { Role := m.Role, Content := m.Content }

/-- Run the turns `reqs` one after the other with `ProcessUserMessage`; the result is
the final world and, for each turn, its request and the reply it returned (the empty
text for a turn that returned an error). -/
def runTurns (env : Env) (r : Retriever) : World → List ChatRequest →
    World × List (ChatRequest × String)
  | w, [] => (w, [])
  | w, req :: rest =>
    let res := ProcessUserMessage env r w req
    let reply :=
      match res.1 with
      | .ok resp => resp.Message
      | .error _ => ""
    let out := runTurns env r res.2 rest
    (out.1, (req, reply) :: out.2)

/-- The messages that the turns `turns` (requests with their replies) append for the
session key `sessionID`, in the order of the turns: for each turn of that session its
user message, then its reply. -/
def expectedHistory (sessionID : String) : List (ChatRequest × String) → List ChatMessage
  | [] => []
  | (req, reply) :: rest =>
    (if req.SessionID = sessionID then
      [{ Role := "user", Content := req.Message }, { Role := "assistant", Content := reply }]
    else [])
      ++ expectedHistory sessionID rest

/-- The role and content of the messages stored for the session key `sessionID`: the
message list of its conversation, or nothing when it has no conversation. -/
def sessionMessages (db : Store) (sessionID : String) : List ChatMessage :=
  match latestConversation db sessionID with
  | none => []
  | some c => (conversationRows db c.id).map fun m => { Role := m.role, Content := m.content }

/-- The invariant of the stores built by the operations: every message was stamped
before the clock and belongs to a conversation id already handed out, every
conversation id was handed out, and a conversation id belongs to one session key. -/
def Store.consistent (db : Store) : Prop :=
  (∀ m ∈ db.messages, m.createdAt < db.clock) ∧
  (∀ m ∈ db.messages, m.conversationId < db.convSeq) ∧
  (∀ c ∈ db.conversations, c.id < db.convSeq) ∧
  (∀ a ∈ db.conversations, ∀ b ∈ db.conversations, a.id = b.id → a.sessionId = b.sessionId)

/-- Four turns over the session keys `s1` and `s2`, interleaved. -/
def sampleTurns : List ChatRequest :=
  [{ SessionID := "s1", Message := "satu" }, { SessionID := "s2", Message := "lain" },
   { SessionID := "s1", Message := "dua" }, { SessionID := "s1", Message := "tiga" }]

/-! ## Basic facts: traces -/

theorem newEvents_append (w w2 : World) (evs : List Event)
    (h : w2.trace = w.trace ++ evs) : newEvents w w2 = evs := by
  simp [newEvents, h]

theorem callsOf_eq_zero (p : Event → Bool) (w w2 : World) (evs : List Event)
    (h : w2.trace = w.trace ++ evs) (hp : ∀ e ∈ evs, p e = false) :
    callsOf p w w2 = 0 := by
  unfold callsOf
  rw [newEvents_append w w2 evs h]
  simp only [List.length_eq_zero, List.filter_eq_nil_iff]
  intro e he
  simp [hp e he]

theorem sameState_emit (w : World) (e : Event) : (w.emit e).sameState w := by
  simp [World.sameState, World.emit]

theorem CreateEmbedding_trace (env : Env) (o : OpenAIEmbedding) (w : World) (text : String) :
    (CreateEmbedding env o w text).2.trace = w.trace ++ [.createEmbedding text] := by
  unfold CreateEmbedding
  simp only [World.emit, World.tick]
  split <;> try rfl
  split <;> try rfl
  split <;> rfl

theorem CreateEmbedding_db (env : Env) (o : OpenAIEmbedding) (w : World) (text : String) :
    (CreateEmbedding env o w text).2.db = w.db := by
  unfold CreateEmbedding
  simp only [World.emit, World.tick]
  split <;> try rfl
  split <;> try rfl
  split <;> rfl

theorem ChatCompletion_trace (env : Env) (o : OpenAIEmbedding) (w : World)
    (messages : List ChatCompletionMessage) :
    (ChatCompletion env o w messages).2.trace = w.trace ++ [.chatCompletion messages] := by
  unfold ChatCompletion
  simp only [World.emit, World.tick]
  split <;> try rfl
  split <;> try rfl
  split <;> rfl

theorem scanDocuments_trace (env : Env) (rows : List (DocumentRow × Rat)) (w : World)
    (acc : List DocumentWithScore) :
    (scanDocuments env rows w acc).2.trace = w.trace := by
  induction rows generalizing w acc with
  | nil => rfl
  | cons row rest ih =>
    obtain ⟨d, dist⟩ := row
    unfold scanDocuments
    split
    · rfl
    · rw [ih]; rfl

theorem scanDocuments_db (env : Env) (rows : List (DocumentRow × Rat)) (w : World)
    (acc : List DocumentWithScore) :
    (scanDocuments env rows w acc).2.db = w.db := by
  induction rows generalizing w acc with
  | nil => rfl
  | cons row rest ih =>
    obtain ⟨d, dist⟩ := row
    unfold scanDocuments
    split
    · rfl
    · rw [ih]; rfl

theorem FindSimilarDocuments_trace (env : Env) (w : World) (q : List Float32) (limit : Int) :
    (FindSimilarDocuments env w q limit).2.trace
      = w.trace ++ [.findSimilarDocuments q limit] := by
  unfold FindSimilarDocuments
  simp only
  split
  · rfl
  · split
    · rfl
    · have ht := scanDocuments_trace env
        (similarRows env (w.emit (.findSimilarDocuments q limit)).tick.db
          (vectorStr env q) limit.toNat)
        (w.emit (.findSimilarDocuments q limit)).tick []
      split
      · next e w2 heq => rw [heq] at ht; exact ht
      · next res w2 heq =>
        rw [heq] at ht
        split <;> exact ht

/-! ## Basic facts: the result does not depend on the ghost trace -/

theorem CreateEmbedding_sameState (env : Env) (o : OpenAIEmbedding) (w w2 : World)
    (text : String) (h : w.sameState w2) :
    (CreateEmbedding env o w text).1 = (CreateEmbedding env o w2 text).1 ∧
      (CreateEmbedding env o w text).2.sameState (CreateEmbedding env o w2 text).2 := by
  obtain ⟨db, ops, tr⟩ := w
  obtain ⟨db2, ops2, tr2⟩ := w2
  obtain ⟨h1, h2⟩ := h
  simp only at h1 h2
  subst h1 h2
  unfold CreateEmbedding
  simp only [World.emit, World.tick, World.sameState]
  split
  · exact ⟨rfl, rfl, rfl⟩
  · exact ⟨rfl, rfl, rfl⟩
  · split
    · exact ⟨rfl, rfl, rfl⟩
    · split <;> exact ⟨rfl, rfl, rfl⟩

theorem scanDocuments_sameState (env : Env) (rows : List (DocumentRow × Rat)) (w w2 : World)
    (acc : List DocumentWithScore) (h : w.sameState w2) :
    (scanDocuments env rows w acc).1 = (scanDocuments env rows w2 acc).1 ∧
      (scanDocuments env rows w acc).2.sameState (scanDocuments env rows w2 acc).2 := by
  induction rows generalizing w w2 acc with
  | nil => exact ⟨rfl, h⟩
  | cons row rest ih =>
    obtain ⟨d, dist⟩ := row
    obtain ⟨hdb, hops⟩ := h
    unfold scanDocuments
    rw [← hops]
    split
    · exact ⟨rfl, hdb, by simp [World.tick, hops]⟩
    · exact ih _ _ _ ⟨hdb, by simp [World.tick, hops]⟩

theorem FindSimilarDocuments_sameState (env : Env) (w w2 : World) (q : List Float32)
    (limit : Int) (h : w.sameState w2) :
    (FindSimilarDocuments env w q limit).1 = (FindSimilarDocuments env w2 q limit).1 ∧
      (FindSimilarDocuments env w q limit).2.sameState
        (FindSimilarDocuments env w2 q limit).2 := by
  obtain ⟨hdb, hops⟩ := h
  have hs : ((w.emit (.findSimilarDocuments q limit)).tick).sameState
      ((w2.emit (.findSimilarDocuments q limit)).tick) :=
    ⟨hdb, by simp [World.tick, World.emit, hops]⟩
  have hscan := scanDocuments_sameState env
    (similarRows env (w.emit (.findSimilarDocuments q limit)).tick.db
      (vectorStr env q) limit.toNat) _ _ [] hs
  have hdb2 : (w2.emit (.findSimilarDocuments q limit)).tick.db
      = (w.emit (.findSimilarDocuments q limit)).tick.db := hdb.symm
  unfold FindSimilarDocuments
  simp only
  have hops2 : (w2.emit (.findSimilarDocuments q limit)).ops
      = (w.emit (.findSimilarDocuments q limit)).ops := hops.symm
  rw [hops2, hdb2]
  split
  · exact ⟨rfl, hdb, by simp [World.tick, World.emit, hops]⟩
  · split
    · exact ⟨rfl, hs⟩
    · revert hscan
      generalize scanDocuments env _ (w.emit (.findSimilarDocuments q limit)).tick [] = s1
      generalize scanDocuments env _ (w2.emit (.findSimilarDocuments q limit)).tick [] = s2
      obtain ⟨r1, v1⟩ := s1
      obtain ⟨r2, v2⟩ := s2
      rintro ⟨hr, hv⟩
      simp only at hr
      subst hr
      cases r1 with
      | error e => exact ⟨rfl, hv⟩
      | ok res =>
        obtain ⟨hv1, hv2⟩ := hv
        simp only at hv1 hv2 ⊢
        rw [← hv2]
        split
        · exact ⟨rfl, hv1, by simp [World.tick, hv2]⟩
        · exact ⟨rfl, hv1, by simp [World.tick, hv2]⟩

theorem RetrieveRelevantDocuments_sameState (env : Env) (r : Retriever) (w w2 : World)
    (query : String) (h : w.sameState w2) :
    (RetrieveRelevantDocuments env r w query).1
        = (RetrieveRelevantDocuments env r w2 query).1 ∧
      (RetrieveRelevantDocuments env r w query).2.sameState
        (RetrieveRelevantDocuments env r w2 query).2 := by
  have hce := CreateEmbedding_sameState env r.embeddingAPI w w2 query h
  unfold RetrieveRelevantDocuments
  revert hce
  generalize CreateEmbedding env r.embeddingAPI w query = c1
  generalize CreateEmbedding env r.embeddingAPI w2 query = c2
  obtain ⟨r1, v1⟩ := c1
  obtain ⟨r2, v2⟩ := c2
  rintro ⟨hr, hv⟩
  simp only at hr
  subst hr
  cases r1 with
  | error e => exact ⟨rfl, hv⟩
  | ok v =>
    simp only
    split
    · exact ⟨rfl, hv⟩
    · have hfs := FindSimilarDocuments_sameState env v1 v2 v r.maxResults hv
      revert hfs
      generalize FindSimilarDocuments env v1 v r.maxResults = f1
      generalize FindSimilarDocuments env v2 v r.maxResults = f2
      obtain ⟨a1, b1⟩ := f1
      obtain ⟨a2, b2⟩ := f2
      rintro ⟨ha, hb⟩
      simp only at ha
      subst ha
      cases a1 <;> exact ⟨rfl, hb⟩

theorem BuildPromptWithContext_sameState (env : Env) (r : Retriever) (w w2 : World)
    (userQuery : String) (h : w.sameState w2) :
    (BuildPromptWithContext env r w userQuery).1
        = (BuildPromptWithContext env r w2 userQuery).1 ∧
      (BuildPromptWithContext env r w userQuery).2.sameState
        (BuildPromptWithContext env r w2 userQuery).2 := by
  have hrr := RetrieveRelevantDocuments_sameState env r w w2 userQuery h
  unfold BuildPromptWithContext
  revert hrr
  generalize RetrieveRelevantDocuments env r w userQuery = c1
  generalize RetrieveRelevantDocuments env r w2 userQuery = c2
  obtain ⟨r1, v1⟩ := c1
  obtain ⟨r2, v2⟩ := c2
  rintro ⟨hr, hv⟩
  simp only at hr
  subst hr
  cases r1 with
  | error e => exact ⟨rfl, hv⟩
  | ok docs =>
    simp only
    split <;> exact ⟨rfl, hv⟩

/-! ## Basic facts: the calls made by retrieval -/

theorem FindSimilarDocuments_db (env : Env) (w : World) (q : List Float32) (limit : Int) :
    (FindSimilarDocuments env w q limit).2.db = w.db := by
  unfold FindSimilarDocuments
  simp only
  split
  · rfl
  · split
    · rfl
    · have ht := scanDocuments_db env
        (similarRows env (w.emit (.findSimilarDocuments q limit)).tick.db
          (vectorStr env q) limit.toNat)
        (w.emit (.findSimilarDocuments q limit)).tick []
      split
      · next e w2 heq => rw [heq] at ht; exact ht
      · next res w2 heq =>
        rw [heq] at ht
        split <;> exact ht

theorem RetrieveRelevantDocuments_trace (env : Env) (r : Retriever) (w : World)
    (query : String) :
    (RetrieveRelevantDocuments env r w query).2.trace
      = w.trace ++ .createEmbedding query ::
          (match (CreateEmbedding env r.embeddingAPI w query).1 with
           | .error _ => []
           | .ok v =>
             if v.length ≠ embeddingDimension then []
             else [.findSimilarDocuments v r.maxResults]) := by
  have hce := CreateEmbedding_trace env r.embeddingAPI w query
  unfold RetrieveRelevantDocuments
  revert hce
  generalize CreateEmbedding env r.embeddingAPI w query = c
  obtain ⟨res, w1⟩ := c
  intro hce
  simp only at hce
  cases res with
  | error e => simpa using hce
  | ok v =>
    simp only
    split
    · simpa using hce
    · have hfs := FindSimilarDocuments_trace env w1 v r.maxResults
      revert hfs
      generalize FindSimilarDocuments env w1 v r.maxResults = f
      obtain ⟨a, b⟩ := f
      intro hfs
      simp only at hfs
      cases a <;> simp [hfs, hce]

theorem RetrieveRelevantDocuments_no_chat (env : Env) (r : Retriever) (w : World)
    (query : String) :
    callsOf isChatCompletion w (RetrieveRelevantDocuments env r w query).2 = 0 := by
  unfold callsOf
  rw [newEvents_append _ _ _ (RetrieveRelevantDocuments_trace env r w query)]
  cases (CreateEmbedding env r.embeddingAPI w query).1 with
  | error e => simp [isChatCompletion]
  | ok v =>
    by_cases h : v.length = embeddingDimension <;> simp [h, isChatCompletion]

theorem BuildPromptWithContext_world (env : Env) (r : Retriever) (w : World)
    (userQuery : String) :
    (BuildPromptWithContext env r w userQuery).2
      = (RetrieveRelevantDocuments env r w userQuery).2 := by
  unfold BuildPromptWithContext
  generalize RetrieveRelevantDocuments env r w userQuery = c
  obtain ⟨res, w1⟩ := c
  cases res with
  | error e => rfl
  | ok docs =>
    simp only
    split <;> rfl

/-! ## Basic facts: the conversation store -/

theorem SaveMessage_trace (env : Env) (w : World) (msg : Message) :
    (SaveMessage env w msg).2.trace
      = w.trace ++ [.saveMessage msg.ConversationID msg.Role msg.Content] := by
  unfold SaveMessage
  simp only
  split <;> rfl

theorem SaveMessage_error_db (env : Env) (w : World) (msg : Message) (e : String)
    (h : (SaveMessage env w msg).1 = .error e) : (SaveMessage env w msg).2.db = w.db := by
  unfold SaveMessage at h ⊢
  simp only at h ⊢
  split at h
  · rfl
  · cases h

theorem SaveMessage_ok_db (env : Env) (w : World) (msg : Message)
    (h : (SaveMessage env w msg).1 = .ok ()) :
    (SaveMessage env w msg).2.db =
      { w.db with
        messages := w.db.messages ++
          [{ id := w.db.msgSeq, conversationId := msg.ConversationID, role := msg.Role,
             content := msg.Content, createdAt := w.db.clock }],
        msgSeq := w.db.msgSeq + 1,
        clock := w.db.clock + 1 } := by
  unfold SaveMessage at h ⊢
  simp only at h ⊢
  split at h
  · cases h
  · rfl

theorem SaveConversation_trace (env : Env) (w : World) (sessionID : String) :
    (SaveConversation env w sessionID).2.trace
      = w.trace ++ [.saveConversation sessionID] := by
  unfold SaveConversation
  simp only
  split <;> rfl

theorem SaveConversation_messages (env : Env) (w : World) (sessionID : String) :
    (SaveConversation env w sessionID).2.db.messages = w.db.messages ∧
      w.db.clock ≤ (SaveConversation env w sessionID).2.db.clock := by
  unfold SaveConversation
  simp only
  split
  · exact ⟨rfl, le_refl _⟩
  · exact ⟨rfl, Nat.le_succ _⟩

theorem GetConversationBySessionID_trace (env : Env) (w : World) (sessionID : String) :
    ∃ evs, (GetConversationBySessionID env w sessionID).2.trace = w.trace ++ evs ∧
      ∀ e ∈ evs, e = .getConversationBySessionID sessionID ∨ e = .saveConversation sessionID := by
  unfold GetConversationBySessionID
  simp only
  split
  · exact ⟨[.getConversationBySessionID sessionID], rfl, by simp⟩
  · split
    · refine ⟨[.getConversationBySessionID sessionID, .saveConversation sessionID], ?_, by simp⟩
      rw [SaveConversation_trace]
      simp [World.tick, World.emit]
    · exact ⟨[.getConversationBySessionID sessionID], rfl, by simp⟩

theorem GetConversationBySessionID_messages (env : Env) (w : World) (sessionID : String) :
    (GetConversationBySessionID env w sessionID).2.db.messages = w.db.messages ∧
      w.db.clock ≤ (GetConversationBySessionID env w sessionID).2.db.clock := by
  unfold GetConversationBySessionID
  simp only
  split
  · exact ⟨rfl, le_refl _⟩
  · split
    · exact SaveConversation_messages env _ sessionID
    · exact ⟨rfl, le_refl _⟩

theorem scanMessages_spec (env : Env) (rows : List MessageRow) (w : World)
    (acc : List Message) :
    (scanMessages env rows w acc).2.trace = w.trace ∧
      (scanMessages env rows w acc).2.db = w.db ∧
      ∀ msgs, (scanMessages env rows w acc).1 = .ok msgs →
        msgs = acc ++ rows.map scanMessage := by
  induction rows generalizing w acc with
  | nil =>
    refine ⟨rfl, rfl, ?_⟩
    intro msgs h
    simp only [scanMessages, Except.ok.injEq] at h
    simp [h]
  | cons m rest ih =>
    unfold scanMessages
    split
    · refine ⟨rfl, rfl, ?_⟩
      intro msgs h
      cases h
    · obtain ⟨h1, h2, h3⟩ := ih w.tick (acc ++ [scanMessage m])
      refine ⟨h1, h2, ?_⟩
      intro msgs h
      rw [h3 msgs h]
      simp

theorem GetConversationMessages_spec (env : Env) (w : World) (conversationID : Int) :
    (GetConversationMessages env w conversationID).2.trace
        = w.trace ++ [.getConversationMessages conversationID] ∧
      (GetConversationMessages env w conversationID).2.db = w.db ∧
      ∀ msgs, (GetConversationMessages env w conversationID).1 = .ok msgs →
        msgs = (conversationRows w.db conversationID).map scanMessage := by
  unfold GetConversationMessages
  simp only
  split
  · exact ⟨rfl, rfl, fun msgs h => by cases h⟩
  · have hs := scanMessages_spec env
      (conversationRows (w.emit (.getConversationMessages conversationID)).db conversationID)
      (w.emit (.getConversationMessages conversationID)).tick []
    revert hs
    generalize scanMessages env _ (w.emit (.getConversationMessages conversationID)).tick [] = c
    obtain ⟨res, w1⟩ := c
    rintro ⟨h1, h2, h3⟩
    simp only at h1 h2 h3
    cases res with
    | error e => exact ⟨h1, h2, fun msgs h => by cases h⟩
    | ok ms =>
      simp only
      have hm := h3 ms rfl
      split
      · exact ⟨h1, h2, fun msgs h => by cases h⟩
      · refine ⟨h1, h2, ?_⟩
        intro msgs h
        simp only [Except.ok.injEq] at h
        rw [← h, hm]
        simp [World.emit]

/-! ## C1 -/

/-- C1: whenever `BuildPromptWithContext` fails on the query (for whatever reason:
embedding error, wrong dimension, store error, no document), the call
`GenerateResponseFromContext` returns, with a nil error, the fixed fallback reply
"Saya tidak dapat menemukan informasi yang relevan untuk pertanyaan Anda. Bisakah
Anda memberikan lebih banyak detail atau menanyakan hal lain?" (the text is written
out in the statement) and makes no `ChatCompletion` call. -/
theorem GenerateResponseFromContext_fallback (env : Env) (r : Retriever) (w : World)
    (userQuery : String) (conversationHistory : List ChatMessage) (err : String)
    (h : (BuildPromptWithContext env r w userQuery).1 = .error err) :
    (GenerateResponseFromContext env r w userQuery conversationHistory).1
        = .ok "Saya tidak dapat menemukan informasi yang relevan untuk pertanyaan Anda. Bisakah Anda memberikan lebih banyak detail atau menanyakan hal lain?" ∧
      (GenerateResponseFromContext env r w userQuery conversationHistory).1
        = .ok fallbackReply ∧
      callsOf isChatCompletion w
        (GenerateResponseFromContext env r w userQuery conversationHistory).2 = 0 := by
  have hs := BuildPromptWithContext_sameState env r
    (w.emit (.generateResponseFromContext userQuery conversationHistory)) w userQuery
    (sameState_emit _ _)
  have hw := BuildPromptWithContext_world env r
    (w.emit (.generateResponseFromContext userQuery conversationHistory)) userQuery
  have ht := RetrieveRelevantDocuments_trace env r
    (w.emit (.generateResponseFromContext userQuery conversationHistory)) userQuery
  rw [← hw] at ht
  rw [h] at hs
  unfold GenerateResponseFromContext
  simp only
  revert hs ht
  generalize BuildPromptWithContext env r
    (w.emit (.generateResponseFromContext userQuery conversationHistory)) userQuery = c
  obtain ⟨res, w1⟩ := c
  rintro ⟨hr, -⟩ ht
  simp only at hr ht
  subst hr
  refine ⟨rfl, rfl, ?_⟩
  simp only [callsOf, newEvents, World.emit, ht]
  generalize (CreateEmbedding env r.embeddingAPI _ userQuery).1 = ce
  cases ce with
  | error e => simp [isChatCompletion]
  | ok v => by_cases hv : v.length = embeddingDimension <;> simp [hv, isChatCompletion]

set_option maxRecDepth 20000 in
/-- C1, on the empty store: no document is retrieved, the fallback is returned
and the chat endpoint is not called. -/
theorem GenerateResponseFromContext_fallback_witness :
    (BuildPromptWithContext (sampleEnv [] 1536 200) sampleRetriever World.init "Apa itu RAG?").1
        = .error "no relevant documents found" ∧
      (GenerateResponseFromContext (sampleEnv [] 1536 200) sampleRetriever World.init
          "Apa itu RAG?" [⟨"user", "Apa itu RAG?"⟩]).1
        = .ok "Saya tidak dapat menemukan informasi yang relevan untuk pertanyaan Anda. Bisakah Anda memberikan lebih banyak detail atau menanyakan hal lain?" ∧
      (GenerateResponseFromContext (sampleEnv [] 1536 200) sampleRetriever World.init
          "Apa itu RAG?" [⟨"user", "Apa itu RAG?"⟩]).1 = .ok fallbackReply ∧
      callsOf isChatCompletion World.init
        (GenerateResponseFromContext (sampleEnv [] 1536 200) sampleRetriever World.init
          "Apa itu RAG?" [⟨"user", "Apa itu RAG?"⟩]).2 = 0 :=
  ⟨by rfl, GenerateResponseFromContext_fallback _ _ _ _ _ _ (by rfl)⟩

/-! ## C2 -/

/-- C2: in a turn where the conversation is resolved, the user message is appended
and the history is loaded, but `GenerateResponseFromContext` returns an error,
`ProcessUserMessage` returns a nil error and the response with `Success = true` whose
`Message` is the fixed, non-empty generic apology; the error text `err` does not
occur in the outcome. -/
theorem ProcessUserMessage_generation_failure (env : Env) (r : Retriever) (w : World)
    (req : ChatRequest) (cid : Int) (w1 w2 w3 w4 : World) (msgs : List Message)
    (err : String)
    (h1 : GetConversationBySessionID env w req.SessionID = (.ok cid, w1))
    (h2 : SaveMessage env w1 ⟨0, cid, "user", req.Message, 0⟩ = (.ok (), w2))
    (h3 : GetConversationMessages env w2 cid = (.ok msgs, w3))
    (h4 : GenerateResponseFromContext env r w3 req.Message (toChatMessages msgs [])
      = (.error err, w4)) :
    (ProcessUserMessage env r w req).1
        = .ok { Success := true, Message := genericReply, SessionID := req.SessionID } ∧
      genericReply ≠ "" := by
  refine ⟨?_, by decide⟩
  unfold ProcessUserMessage
  rw [h1]
  simp only
  rw [h2]
  simp only
  rw [h3]
  simp only
  rw [h4]

set_option maxRecDepth 20000 in
/-- C2, on a store with one embedded document and a chat endpoint answering 500:
generation fails and the turn still succeeds with the generic apology. -/
theorem ProcessUserMessage_generation_failure_witness :
    (GenerateResponseFromContext (sampleEnv [] 1536 500) sampleRetriever
        (afterHistory (sampleEnv [] 1536 500) sampleWorld sampleRequest 1)
        "Apa itu RAG?" [⟨"user", "Apa itu RAG?"⟩]).1
        = .error "error generating response: OpenAI API error: chat-body" ∧
      (ProcessUserMessage (sampleEnv [] 1536 500) sampleRetriever sampleWorld sampleRequest).1
        = .ok { Success := true, Message := genericReply, SessionID := "s1" } ∧
      genericReply ≠ "" :=
  ⟨by rfl,
    ProcessUserMessage_generation_failure (sampleEnv [] 1536 500) sampleRetriever sampleWorld
      sampleRequest 1
      (afterResolve (sampleEnv [] 1536 500) sampleWorld sampleRequest)
      (afterUserAppend (sampleEnv [] 1536 500) sampleWorld sampleRequest 1)
      (afterHistory (sampleEnv [] 1536 500) sampleWorld sampleRequest 1)
      (afterGeneration (sampleEnv [] 1536 500) sampleRetriever sampleWorld sampleRequest 1
        [⟨1, 1, "user", "Apa itu RAG?", 2⟩])
      [⟨1, 1, "user", "Apa itu RAG?", 2⟩]
      "error generating response: OpenAI API error: chat-body"
      (by rfl) (by rfl) (by rfl) (by rfl)⟩

/-! ## C3 -/

/-- C3: in a turn where appending the user message fails, `ProcessUserMessage`
returns a non-nil error and no response; between the start and the end of the turn
there is no call of `GenerateResponseFromContext`, of `CreateEmbedding` or of
`ChatCompletion`, no `SaveMessage` call for an assistant message, and the table of
messages is unchanged. -/
theorem ProcessUserMessage_user_append_failure (env : Env) (r : Retriever) (w : World)
    (req : ChatRequest) (cid : Int) (w1 w2 : World) (e : String)
    (h1 : GetConversationBySessionID env w req.SessionID = (.ok cid, w1))
    (h2 : SaveMessage env w1 ⟨0, cid, "user", req.Message, 0⟩ = (.error e, w2)) :
    ProcessUserMessage env r w req = (.error ("error saving user message: " ++ e), w2) ∧
      callsOf isGenerateResponseFromContext w w2 = 0 ∧
      callsOf isCreateEmbedding w w2 = 0 ∧
      callsOf isChatCompletion w w2 = 0 ∧
      callsOf isSaveAssistantMessage w w2 = 0 ∧
      w2.db.messages = w.db.messages := by
  obtain ⟨evs, ht, hall⟩ := GetConversationBySessionID_trace env w req.SessionID
  have hm := (GetConversationBySessionID_messages env w req.SessionID).1
  have hst := SaveMessage_trace env w1 ⟨0, cid, "user", req.Message, 0⟩
  have hsd := SaveMessage_error_db env w1 ⟨0, cid, "user", req.Message, 0⟩ e (by rw [h2])
  rw [h1] at ht hm
  rw [h2] at hst hsd
  simp only at ht hm hst hsd
  have htrace : w2.trace = w.trace ++ (evs ++ [.saveMessage cid "user" req.Message]) := by
    rw [hst, ht, List.append_assoc]
  have hev : ∀ p : Event → Bool,
      p (.getConversationBySessionID req.SessionID) = false →
      p (.saveConversation req.SessionID) = false →
      p (.saveMessage cid "user" req.Message) = false →
      callsOf p w w2 = 0 := by
    intro p hp1 hp2 hp3
    apply callsOf_eq_zero p w w2 _ htrace
    intro ev hmem
    rcases List.mem_append.1 hmem with hmem | hmem
    · rcases hall ev hmem with rfl | rfl
      · exact hp1
      · exact hp2
    · rw [List.mem_singleton.1 hmem]
      exact hp3
  refine ⟨?_, hev _ rfl rfl rfl, hev _ rfl rfl rfl, hev _ rfl rfl rfl,
    hev _ rfl rfl rfl, ?_⟩
  · unfold ProcessUserMessage
    rw [h1]
    simp only
    rw [h2]
  · rw [hsd, hm]

/-- C3, on the empty store with the third database operation (the insert of the
user message) failing. -/
theorem ProcessUserMessage_user_append_failure_witness :
    (SaveMessage (sampleEnv [2] 1536 200)
        (afterResolve (sampleEnv [2] 1536 200) World.init sampleRequest)
        ⟨0, 1, "user", "Apa itu RAG?", 0⟩).1
        = .error "error saving message: connection refused" ∧
      (ProcessUserMessage (sampleEnv [2] 1536 200) sampleRetriever World.init sampleRequest).1
        = .error "error saving user message: error saving message: connection refused" ∧
      (ProcessUserMessage (sampleEnv [2] 1536 200) sampleRetriever World.init
        sampleRequest).2.db.messages = [] :=
  have h := ProcessUserMessage_user_append_failure (sampleEnv [2] 1536 200) sampleRetriever
    World.init sampleRequest 1
    (afterResolve (sampleEnv [2] 1536 200) World.init sampleRequest)
    (afterUserAppend (sampleEnv [2] 1536 200) World.init sampleRequest 1)
    "error saving message: connection refused" (by rfl) (by rfl)
  ⟨by rfl, by rw [h.1]; rfl, by rw [h.1]; exact h.2.2.2.2.2⟩

/-! ## C4 -/

/-- C4: in a turn where generation produced the reply `reply`, whatever the outcome
`res` of appending the assistant message (success or failure), `ProcessUserMessage`
returns a nil error and the response carrying exactly `reply`; a failed append is
only logged.  (For the turn whose reply is the generic apology, the theorem of that
case makes no assumption on the append either.) -/
theorem ProcessUserMessage_assistant_append_best_effort (env : Env) (r : Retriever)
    (w : World) (req : ChatRequest) (cid : Int) (w1 w2 w3 w4 w5 : World)
    (msgs : List Message) (reply : String) (res : Except String Unit)
    (h1 : GetConversationBySessionID env w req.SessionID = (.ok cid, w1))
    (h2 : SaveMessage env w1 ⟨0, cid, "user", req.Message, 0⟩ = (.ok (), w2))
    (h3 : GetConversationMessages env w2 cid = (.ok msgs, w3))
    (h4 : GenerateResponseFromContext env r w3 req.Message (toChatMessages msgs [])
      = (.ok reply, w4))
    (h5 : SaveMessage env w4 ⟨0, cid, "assistant", reply, 0⟩ = (res, w5)) :
    (ProcessUserMessage env r w req).1
        = .ok { Success := true, Message := reply, SessionID := req.SessionID } ∧
      (∀ e, res = .error e →
        (ProcessUserMessage env r w req).2
          = w5.emit (.log ("Error saving assistant message: " ++ e))) ∧
      (res = .ok () → (ProcessUserMessage env r w req).2 = w5) := by
  cases res with
  | error e =>
    have key : ProcessUserMessage env r w req
        = (.ok { Success := true, Message := reply, SessionID := req.SessionID },
            w5.emit (.log ("Error saving assistant message: " ++ e))) := by
      unfold ProcessUserMessage
      rw [h1]
      simp only
      rw [h2]
      simp only
      rw [h3]
      simp only
      rw [h4]
      simp only
      rw [h5]
    rw [key]
    exact ⟨rfl, fun e2 he => (by cases he; rfl), fun he => (by cases he)⟩
  | ok u =>
    have key : ProcessUserMessage env r w req
        = (.ok { Success := true, Message := reply, SessionID := req.SessionID }, w5) := by
      unfold ProcessUserMessage
      rw [h1]
      simp only
      rw [h2]
      simp only
      rw [h3]
      simp only
      rw [h4]
      simp only
      rw [h5]
    rw [key]
    exact ⟨rfl, fun e2 he => (by cases he), fun _ => rfl⟩

set_option maxRecDepth 20000 in
/-- C4, on a store with one embedded document where the insert of the assistant
message (database operation 11 of the turn) fails: the reply is returned all the
same. -/
theorem ProcessUserMessage_assistant_append_best_effort_witness :
    (SaveMessage (sampleEnv [11] 1536 200)
        (afterGeneration (sampleEnv [11] 1536 200) sampleRetriever sampleWorld sampleRequest 1
          [⟨1, 1, "user", "Apa itu RAG?", 2⟩])
        ⟨0, 1, "assistant", "Jawaban.", 0⟩).1
        = .error "error saving message: connection refused" ∧
      (ProcessUserMessage (sampleEnv [11] 1536 200) sampleRetriever sampleWorld sampleRequest).1
        = .ok { Success := true, Message := "Jawaban.", SessionID := "s1" } :=
  ⟨by rfl,
    (ProcessUserMessage_assistant_append_best_effort (sampleEnv [11] 1536 200) sampleRetriever
      sampleWorld sampleRequest 1
      (afterResolve (sampleEnv [11] 1536 200) sampleWorld sampleRequest)
      (afterUserAppend (sampleEnv [11] 1536 200) sampleWorld sampleRequest 1)
      (afterHistory (sampleEnv [11] 1536 200) sampleWorld sampleRequest 1)
      (afterGeneration (sampleEnv [11] 1536 200) sampleRetriever sampleWorld sampleRequest 1
        [⟨1, 1, "user", "Apa itu RAG?", 2⟩])
      (SaveMessage (sampleEnv [11] 1536 200)
        (afterGeneration (sampleEnv [11] 1536 200) sampleRetriever sampleWorld sampleRequest 1
          [⟨1, 1, "user", "Apa itu RAG?", 2⟩])
        ⟨0, 1, "assistant", "Jawaban.", 0⟩).2
      [⟨1, 1, "user", "Apa itu RAG?", 2⟩] "Jawaban."
      (.error "error saving message: connection refused")
      (by rfl) (by rfl) (by rfl) (by rfl) (by rfl)).1⟩

/-! ## C5 -/

theorem appendHistory_eq (hist : List ChatMessage) (acc : List ChatCompletionMessage) :
    appendHistory hist acc
      = acc ++ hist.map fun m => ({ Role := m.Role, Content := m.Content } : ChatCompletionMessage) := by
  induction hist generalizing acc with
  | nil => simp [appendHistory]
  | cons m rest ih => simp [appendHistory, ih]

theorem completionMessages_eq (hist : List ChatMessage) (p : String) :
    completionMessages hist p
      = systemPrompt ::
          ((hist.map fun m => ({ Role := m.Role, Content := m.Content } : ChatCompletionMessage))
            ++ [{ Role := "user", Content := p }]) := by
  simp [completionMessages, appendHistory_eq]

theorem BuildPromptWithContext_no_chat (env : Env) (r : Retriever) (w : World)
    (userQuery : String) :
    ∃ evs, (BuildPromptWithContext env r w userQuery).2.trace = w.trace ++ evs ∧
      evs.filter isChatCompletion = [] := by
  rw [BuildPromptWithContext_world]
  refine ⟨_, RetrieveRelevantDocuments_trace env r w userQuery, ?_⟩
  cases (CreateEmbedding env r.embeddingAPI w userQuery).1 with
  | error e => simp [isChatCompletion]
  | ok v => by_cases hv : v.length = embeddingDimension <;> simp [hv, isChatCompletion]

/-- C5: when `BuildPromptWithContext` succeeds on the query with prompt `p`, the
slice handed to `ChatCompletion` is the fixed system message (role `system`, content
"Anda adalah asisten AI yang membantu pengguna dengan informasi berdasarkan dokumen
yang tersedia.", both written out in the statement), then the history entries in
order with role and content copied, then the user message with content `p`: it has
`n + 2` elements for a history of `n` entries.  `ChatCompletion` is called exactly
once, with this slice, and `GenerateResponseFromContext` returns its text unchanged,
or an error when it fails. -/
theorem GenerateResponseFromContext_messages (env : Env) (r : Retriever) (w : World)
    (userQuery : String) (conversationHistory : List ChatMessage) (p : String)
    (h : (BuildPromptWithContext env r w userQuery).1 = .ok p) :
    completionMessages conversationHistory p
        = (⟨"system", "Anda adalah asisten AI yang membantu pengguna dengan informasi berdasarkan dokumen yang tersedia."⟩ : ChatCompletionMessage) ::
            ((conversationHistory.map fun m =>
                ({ Role := m.Role, Content := m.Content } : ChatCompletionMessage))
              ++ [{ Role := "user", Content := p }]) ∧
      (completionMessages conversationHistory p).length = conversationHistory.length + 2 ∧
      (completionMessages conversationHistory p).head?
        = some ⟨"system", "Anda adalah asisten AI yang membantu pengguna dengan informasi berdasarkan dokumen yang tersedia."⟩ ∧
      (∀ first, (completionMessages conversationHistory p).head? = some first →
        first.Role = "system") ∧
      (completionMessages conversationHistory p).head? = some systemPrompt ∧
      (∀ i m, conversationHistory[i]? = some m →
        (completionMessages conversationHistory p)[i + 1]?
          = some { Role := m.Role, Content := m.Content }) ∧
      (completionMessages conversationHistory p).getLast?
        = some { Role := "user", Content := p } ∧
      (newEvents w
          (GenerateResponseFromContext env r w userQuery conversationHistory).2).filter
          isChatCompletion
        = [.chatCompletion (completionMessages conversationHistory p)] ∧
      (GenerateResponseFromContext env r w userQuery conversationHistory).1
        = (match (ChatCompletion env r.embeddingAPI
              (BuildPromptWithContext env r
                (w.emit (.generateResponseFromContext userQuery conversationHistory))
                userQuery).2
              (completionMessages conversationHistory p)).1 with
           | .ok text => .ok text
           | .error err => .error ("error generating response: " ++ err)) := by
  have heq := completionMessages_eq conversationHistory p
  refine ⟨heq, ?_, ?_, ?_, ?_, ?_, ?_, ?_, ?_⟩
  · rw [heq]; simp
  · rw [heq]; rfl
  · intro first hfirst
    rw [heq] at hfirst
    simp only [List.head?_cons, Option.some.injEq] at hfirst
    rw [← hfirst]
    rfl
  · rw [heq]; rfl
  · intro i m hm
    rw [heq]
    have hi : i < conversationHistory.length := by
      by_contra hc
      rw [List.getElem?_eq_none (Nat.le_of_not_lt hc)] at hm
      cases hm
    rw [List.getElem?_cons_succ, List.getElem?_append_left (by simpa using hi)]
    simp [hm]
  · rw [heq, ← List.cons_append, List.getLast?_append]
    simp
  · have hs := (BuildPromptWithContext_sameState env r
      (w.emit (.generateResponseFromContext userQuery conversationHistory)) w userQuery
      (sameState_emit _ _)).1
    rw [h] at hs
    obtain ⟨evs, ht, hf⟩ := BuildPromptWithContext_no_chat env r
      (w.emit (.generateResponseFromContext userQuery conversationHistory)) userQuery
    unfold GenerateResponseFromContext
    simp only
    revert hs ht
    generalize BuildPromptWithContext env r
      (w.emit (.generateResponseFromContext userQuery conversationHistory)) userQuery = c
    obtain ⟨res, w1⟩ := c
    intro hs ht
    simp only at hs ht
    subst hs
    simp only
    have hc := ChatCompletion_trace env r.embeddingAPI w1
      (completionMessages conversationHistory p)
    revert hc
    generalize ChatCompletion env r.embeddingAPI w1
      (completionMessages conversationHistory p) = cc
    obtain ⟨a, b⟩ := cc
    intro hc
    simp only at hc
    have hb : newEvents w b
        = .generateResponseFromContext userQuery conversationHistory ::
            (evs ++ [.chatCompletion (completionMessages conversationHistory p)]) := by
      apply newEvents_append
      rw [hc, ht]
      simp [World.emit]
    cases a <;> simp [hb, hf, isChatCompletion]
  · have hs := (BuildPromptWithContext_sameState env r
      (w.emit (.generateResponseFromContext userQuery conversationHistory)) w userQuery
      (sameState_emit _ _)).1
    rw [h] at hs
    unfold GenerateResponseFromContext
    simp only
    revert hs
    generalize BuildPromptWithContext env r
      (w.emit (.generateResponseFromContext userQuery conversationHistory)) userQuery = c
    obtain ⟨res, w1⟩ := c
    intro hs
    simp only at hs
    subst hs
    simp only
    generalize ChatCompletion env r.embeddingAPI w1
      (completionMessages conversationHistory p) = cc
    obtain ⟨a, b⟩ := cc
    cases a <;> rfl

set_option maxRecDepth 20000 in
/-- C5, on a store with one embedded document and a history of one entry: three
messages are sent and the text of the chat endpoint is returned. -/
theorem GenerateResponseFromContext_messages_witness :
    (BuildPromptWithContext (sampleEnv [] 1536 200) sampleRetriever sampleWorld
        "Apa itu RAG?").1 = .ok samplePrompt ∧
      completionMessages [⟨"user", "Apa itu RAG?"⟩] samplePrompt
        = [⟨"system", "Anda adalah asisten AI yang membantu pengguna dengan informasi berdasarkan dokumen yang tersedia."⟩,
            ⟨"user", "Apa itu RAG?"⟩, ⟨"user", samplePrompt⟩] ∧
      (GenerateResponseFromContext (sampleEnv [] 1536 200) sampleRetriever sampleWorld
        "Apa itu RAG?" [⟨"user", "Apa itu RAG?"⟩]).1 = .ok "Jawaban." :=
  ⟨by rfl,
    (GenerateResponseFromContext_messages (sampleEnv [] 1536 200) sampleRetriever sampleWorld
      "Apa itu RAG?" [⟨"user", "Apa itu RAG?"⟩] samplePrompt (by rfl)).1,
    by rfl⟩

/-! ## C6 -/

/-- C6: `RetrieveRelevantDocuments` compares the length of the vector `v` returned by
`CreateEmbedding` with the declared dimension (1536).  If the length differs it
returns an error and makes no `FindSimilarDocuments` call; if it matches, the only
calls are `CreateEmbedding` and then `FindSimilarDocuments` on the very same `v`
(with `maxResults`), and the result of that call is returned (an error with the
prefix the function adds). -/
theorem RetrieveRelevantDocuments_dimension (env : Env) (r : Retriever) (w : World)
    (query : String) (v : List Float32) (w1 : World)
    (h : CreateEmbedding env r.embeddingAPI w query = (.ok v, w1)) :
    embeddingDimension = 1536 ∧
      (v.length ≠ embeddingDimension →
        RetrieveRelevantDocuments env r w query
            = (.error ("invalid embedding dimension: expected 1536, got "
                ++ toString v.length), w1) ∧
          callsOf isFindSimilarDocuments w (RetrieveRelevantDocuments env r w query).2 = 0) ∧
      (v.length = embeddingDimension →
        newEvents w (RetrieveRelevantDocuments env r w query).2
            = [.createEmbedding query, .findSimilarDocuments v r.maxResults] ∧
          RetrieveRelevantDocuments env r w query
            = (match FindSimilarDocuments env w1 v r.maxResults with
               | (.error err, w2) => (.error ("error finding similar documents: " ++ err), w2)
               | (.ok docs, w2) => (.ok docs, w2))) := by
  have ht := RetrieveRelevantDocuments_trace env r w query
  rw [h] at ht
  simp only at ht
  refine ⟨rfl, ?_, ?_⟩
  · intro hne
    rw [if_pos hne] at ht
    refine ⟨?_, callsOf_eq_zero _ _ _ _ ht ?_⟩
    · unfold RetrieveRelevantDocuments
      rw [h]
      simp only
      rw [if_pos hne]
    · intro e he
      rw [List.mem_singleton.1 he]
      rfl
  · intro heq
    rw [if_neg (not_not.2 heq)] at ht
    refine ⟨newEvents_append _ _ _ ht, ?_⟩
    unfold RetrieveRelevantDocuments
    rw [h]
    simp only
    rw [if_neg (not_not.2 heq)]

set_option maxRecDepth 20000 in
/-- C6, on `sampleStore`: a vector of 3 components is rejected without a search, a
vector of 1536 components is searched for and the document found is returned. -/
theorem RetrieveRelevantDocuments_dimension_witness :
    (RetrieveRelevantDocuments (sampleEnv [] 3 200) sampleRetriever sampleWorld "Apa itu RAG?").1
        = .error "invalid embedding dimension: expected 1536, got 3" ∧
      callsOf isFindSimilarDocuments sampleWorld
        (RetrieveRelevantDocuments (sampleEnv [] 3 200) sampleRetriever sampleWorld
          "Apa itu RAG?").2 = 0 ∧
      newEvents sampleWorld
          (RetrieveRelevantDocuments (sampleEnv [] 1536 200) sampleRetriever sampleWorld
            "Apa itu RAG?").2
        = [.createEmbedding "Apa itu RAG?",
            .findSimilarDocuments (List.replicate 1536 ⟨0⟩) 5] ∧
      (RetrieveRelevantDocuments (sampleEnv [] 1536 200) sampleRetriever sampleWorld
          "Apa itu RAG?").1 = .ok [sampleScored] :=
  ⟨by rfl,
    ((RetrieveRelevantDocuments_dimension (sampleEnv [] 3 200) sampleRetriever sampleWorld
      "Apa itu RAG?" (List.replicate 3 ⟨0⟩)
      (CreateEmbedding (sampleEnv [] 3 200) sampleAPI sampleWorld "Apa itu RAG?").2
      (by rfl)).2.1 (by decide)).2,
    ((RetrieveRelevantDocuments_dimension (sampleEnv [] 1536 200) sampleRetriever sampleWorld
      "Apa itu RAG?" (List.replicate 1536 ⟨0⟩)
      (CreateEmbedding (sampleEnv [] 1536 200) sampleAPI sampleWorld "Apa itu RAG?").2
      (by rfl)).2.2 (by rfl)).1,
    by rfl⟩

/-! ## C7 -/

/-- C7: when retrieval succeeds with zero documents, `BuildPromptWithContext` fails
with "no relevant documents found" (it returns no prompt); and it returns a prompt
`p` with a nil error exactly when retrieval succeeds with at least one document, `p`
then being the prompt rendered from these documents. -/
theorem BuildPromptWithContext_requires_documents (env : Env) (r : Retriever) (w : World)
    (userQuery : String) :
    (∀ docs, (RetrieveRelevantDocuments env r w userQuery).1 = .ok docs →
        docs.length = 0 →
        (BuildPromptWithContext env r w userQuery).1 = .error "no relevant documents found") ∧
      (∀ p, (BuildPromptWithContext env r w userQuery).1 = .ok p ↔
        ∃ docs, (RetrieveRelevantDocuments env r w userQuery).1 = .ok docs ∧
          0 < docs.length ∧ p = renderPrompt env docs userQuery) := by
  unfold BuildPromptWithContext
  generalize RetrieveRelevantDocuments env r w userQuery = c
  obtain ⟨res, w1⟩ := c
  cases res with
  | error e =>
    refine ⟨fun docs h => (by cases h), fun p => ⟨fun h => (by cases h), ?_⟩⟩
    rintro ⟨docs, h, -⟩
    cases h
  | ok ds =>
    simp only
    refine ⟨?_, ?_⟩
    · intro docs h h0
      simp only [Except.ok.injEq] at h
      subst h
      rw [if_pos h0]
    · intro p
      by_cases h0 : ds.length = 0
      · rw [if_pos h0]
        refine ⟨fun h => (by cases h), ?_⟩
        rintro ⟨docs, h, hpos, -⟩
        simp only [Except.ok.injEq] at h
        subst h
        omega
      · rw [if_neg h0]
        constructor
        · intro h
          simp only [Except.ok.injEq] at h
          exact ⟨ds, rfl, Nat.pos_of_ne_zero h0, h.symm⟩
        · rintro ⟨docs, h, -, hp⟩
          simp only [Except.ok.injEq] at h
          subst h
          rw [hp]

set_option maxRecDepth 20000 in
/-- C7, on the empty store (retrieval succeeds with no document, no prompt) and on
`sampleStore` (one document, a prompt). -/
theorem BuildPromptWithContext_requires_documents_witness :
    (RetrieveRelevantDocuments (sampleEnv [] 1536 200) sampleRetriever World.init
        "Apa itu RAG?").1 = .ok [] ∧
      (BuildPromptWithContext (sampleEnv [] 1536 200) sampleRetriever World.init
        "Apa itu RAG?").1 = .error "no relevant documents found" ∧
      (BuildPromptWithContext (sampleEnv [] 1536 200) sampleRetriever sampleWorld
        "Apa itu RAG?").1 = .ok samplePrompt :=
  ⟨by rfl,
    (BuildPromptWithContext_requires_documents (sampleEnv [] 1536 200) sampleRetriever
      World.init "Apa itu RAG?").1 [] (by rfl) (by rfl),
    ((BuildPromptWithContext_requires_documents (sampleEnv [] 1536 200) sampleRetriever
      sampleWorld "Apa itu RAG?").2 samplePrompt).2
      ⟨[sampleScored], by rfl, by decide, by rfl⟩⟩

/-! ## C8 -/

theorem orderedInsert_append_singleton {α : Type} (r : α → α → Prop) [DecidableRel r]
    (b a : α) (hba : r b a) (l : List α) :
    (l ++ [a]).orderedInsert r b = l.orderedInsert r b ++ [a] := by
  induction l with
  | nil => simp [List.orderedInsert, hba]
  | cons c l ih =>
    by_cases hbc : r b c
    · simp [List.orderedInsert, hbc]
    · simp [List.orderedInsert, hbc, ih]

theorem insertionSort_append_singleton {α : Type} (r : α → α → Prop) [DecidableRel r]
    (a : α) (l : List α) (h : ∀ b ∈ l, r b a) :
    (l ++ [a]).insertionSort r = l.insertionSort r ++ [a] := by
  induction l with
  | nil => simp [List.insertionSort]
  | cons b l ih =>
    have ih2 := ih fun c hc => h c (List.mem_cons_of_mem _ hc)
    have ho := orderedInsert_append_singleton r b a (h b (List.mem_cons_self _ _))
      (l.insertionSort r)
    show List.orderedInsert r b ((l ++ [a]).insertionSort r)
      = List.orderedInsert r b (l.insertionSort r) ++ [a]
    rw [ih2]
    exact ho

theorem conversationRows_append (db db2 : Store) (row : MessageRow)
    (hm : db2.messages = db.messages ++ [row])
    (hle : ∀ m ∈ db.messages, m.createdAt ≤ row.createdAt) :
    conversationRows db2 row.conversationId = conversationRows db row.conversationId ++ [row] := by
  unfold conversationRows
  rw [hm, List.filter_append]
  have hf : ([row].filter fun m => decide (m.conversationId = row.conversationId)) = [row] := by
    simp
  rw [hf]
  apply insertionSort_append_singleton
  intro b hb
  exact hle b (List.mem_filter.1 hb).1

theorem toChatMessages_eq (msgs : List Message) (acc : List ChatMessage) :
    toChatMessages msgs acc
      = acc ++ msgs.map fun m => ({ Role := m.Role, Content := m.Content } : ChatMessage) := by
  induction msgs generalizing acc with
  | nil => simp [toChatMessages]
  | cons m rest ih => simp [toChatMessages, ih]

theorem conversationRows_sorted (db : Store) (cid : Int) :
    (conversationRows db cid).Pairwise fun a b => a.createdAt ≤ b.createdAt := by
  haveI : IsTotal MessageRow (fun a b => a.createdAt ≤ b.createdAt) :=
    ⟨fun a b => Nat.le_total _ _⟩
  haveI : IsTrans MessageRow (fun a b => a.createdAt ≤ b.createdAt) :=
    ⟨fun _ _ _ h1 h2 => Nat.le_trans h1 h2⟩
  exact List.sorted_insertionSort (fun a b : MessageRow => a.createdAt ≤ b.createdAt) _

theorem BuildPromptWithContext_no_generate (env : Env) (r : Retriever) (w : World)
    (userQuery : String) :
    ∃ evs, (BuildPromptWithContext env r w userQuery).2.trace = w.trace ++ evs ∧
      evs.filter isGenerateResponseFromContext = [] := by
  rw [BuildPromptWithContext_world]
  refine ⟨_, RetrieveRelevantDocuments_trace env r w userQuery, ?_⟩
  cases (CreateEmbedding env r.embeddingAPI w userQuery).1 with
  | error e => simp [isGenerateResponseFromContext]
  | ok v =>
    by_cases hv : v.length = embeddingDimension <;>
      simp [hv, isGenerateResponseFromContext]

theorem GenerateResponseFromContext_trace (env : Env) (r : Retriever) (w : World)
    (userQuery : String) (hist : List ChatMessage) :
    ∃ evs, (GenerateResponseFromContext env r w userQuery hist).2.trace
        = w.trace ++ .generateResponseFromContext userQuery hist :: evs ∧
      evs.filter isGenerateResponseFromContext = [] := by
  obtain ⟨evs, ht, hf⟩ := BuildPromptWithContext_no_generate env r
    (w.emit (.generateResponseFromContext userQuery hist)) userQuery
  unfold GenerateResponseFromContext
  simp only
  revert ht
  generalize BuildPromptWithContext env r
    (w.emit (.generateResponseFromContext userQuery hist)) userQuery = c
  obtain ⟨res, w1⟩ := c
  intro ht
  simp only at ht
  cases res with
  | error e =>
    refine ⟨evs ++ [.log ("Error building prompt: " ++ e)], ?_, ?_⟩
    · simp [World.emit, ht]
    · simp [hf, isGenerateResponseFromContext]
  | ok p =>
    simp only
    have hc := ChatCompletion_trace env r.embeddingAPI w1 (completionMessages hist p)
    revert hc
    generalize ChatCompletion env r.embeddingAPI w1 (completionMessages hist p) = cc
    obtain ⟨a, b⟩ := cc
    intro hc
    simp only at hc
    refine ⟨evs ++ [.chatCompletion (completionMessages hist p)], ?_, ?_⟩
    · cases a <;> simp [hc, ht, World.emit]
    · simp [hf, isGenerateResponseFromContext]

theorem ProcessUserMessage_generate_calls (env : Env) (r : Retriever) (w : World)
    (req : ChatRequest) (cid : Int) (w1 w2 w3 : World) (msgs : List Message)
    (h1 : GetConversationBySessionID env w req.SessionID = (.ok cid, w1))
    (h2 : SaveMessage env w1 ⟨0, cid, "user", req.Message, 0⟩ = (.ok (), w2))
    (h3 : GetConversationMessages env w2 cid = (.ok msgs, w3)) :
    (newEvents w (ProcessUserMessage env r w req).2).filter isGenerateResponseFromContext
      = [.generateResponseFromContext req.Message (toChatMessages msgs [])] := by
  obtain ⟨evs0, ht0, hall0⟩ := GetConversationBySessionID_trace env w req.SessionID
  have ht1 := SaveMessage_trace env w1 ⟨0, cid, "user", req.Message, 0⟩
  have ht2 := (GetConversationMessages_spec env w2 cid).1
  obtain ⟨gevs, htg, hfg⟩ := GenerateResponseFromContext_trace env r w3 req.Message
    (toChatMessages msgs [])
  rw [h1] at ht0
  rw [h2] at ht1
  rw [h3] at ht2
  simp only at ht0 ht1 ht2
  have hf0 : evs0.filter isGenerateResponseFromContext = [] := by
    rw [List.filter_eq_nil_iff]
    intro e he
    rcases hall0 e he with rfl | rfl <;> simp [isGenerateResponseFromContext]
  unfold ProcessUserMessage
  rw [h1]
  simp only
  rw [h2]
  simp only
  rw [h3]
  simp only
  revert htg
  generalize GenerateResponseFromContext env r w3 req.Message (toChatMessages msgs []) = g
  obtain ⟨gres, wg⟩ := g
  intro htg
  simp only at htg
  cases gres with
  | error err =>
    simp only
    have hs := SaveMessage_trace env
      (wg.emit (.log ("Error generating response: " ++ err ++ ", will return generic response")))
      ⟨0, cid, "assistant", genericReply, 0⟩
    revert hs
    generalize SaveMessage env
      (wg.emit (.log ("Error generating response: " ++ err ++ ", will return generic response")))
      ⟨0, cid, "assistant", genericReply, 0⟩ = sm
    obtain ⟨a, b⟩ := sm
    intro hs
    simp only at hs
    cases a <;>
      simp [newEvents, World.emit, hs, htg, ht2, ht1, ht0, hf0, hfg,
        isGenerateResponseFromContext]
  | ok reply =>
    simp only
    have hs := SaveMessage_trace env wg ⟨0, cid, "assistant", reply, 0⟩
    revert hs
    generalize SaveMessage env wg ⟨0, cid, "assistant", reply, 0⟩ = sm
    obtain ⟨a, b⟩ := sm
    intro hs
    simp only at hs
    cases a <;>
      simp [newEvents, World.emit, hs, htg, ht2, ht1, ht0, hf0, hfg,
        isGenerateResponseFromContext]

/-- C8: in a turn that reaches reply generation (conversation resolved, user message
appended, history loaded), over a store whose messages were stamped before its
clock: the one `GenerateResponseFromContext` call of the turn gets the request's
`Message` as query and, as history, the role/content pairs of the loaded messages
`msgs`; `msgs` is the full list of the conversation's rows after the append (a
permutation of the rows with that conversation id), in ascending `created_at`
order; it is the list before the append followed by the new user row, so the last
history entry is `("user", req.Message)`. -/
theorem ProcessUserMessage_history (env : Env) (r : Retriever) (w : World)
    (req : ChatRequest) (cid : Int) (w1 w2 w3 : World) (msgs : List Message)
    (hclock : w.db.clockAhead)
    (h1 : GetConversationBySessionID env w req.SessionID = (.ok cid, w1))
    (h2 : SaveMessage env w1 ⟨0, cid, "user", req.Message, 0⟩ = (.ok (), w2))
    (h3 : GetConversationMessages env w2 cid = (.ok msgs, w3)) :
    (newEvents w (ProcessUserMessage env r w req).2).filter isGenerateResponseFromContext
        = [.generateResponseFromContext req.Message (toChatMessages msgs [])] ∧
      toChatMessages msgs []
        = msgs.map (fun m => ({ Role := m.Role, Content := m.Content } : ChatMessage)) ∧
      msgs = (conversationRows w2.db cid).map scanMessage ∧
      (conversationRows w2.db cid).Perm
        (w2.db.messages.filter fun m => m.conversationId = cid) ∧
      msgs.Pairwise (fun a b => a.CreatedAt ≤ b.CreatedAt) ∧
      conversationRows w2.db cid
        = conversationRows w1.db cid
            ++ [{ id := w1.db.msgSeq, conversationId := cid, role := "user",
                  content := req.Message, createdAt := w1.db.clock }] ∧
      (toChatMessages msgs []).getLast? = some { Role := "user", Content := req.Message } := by
  have hcalls := ProcessUserMessage_generate_calls env r w req cid w1 w2 w3 msgs h1 h2 h3
  have hchat := toChatMessages_eq msgs []
  simp only [List.nil_append] at hchat
  have hm := (GetConversationMessages_spec env w2 cid).2.2 msgs (by rw [h3])
  have hg := GetConversationBySessionID_messages env w req.SessionID
  rw [h1] at hg
  simp only at hg
  have hdb := SaveMessage_ok_db env w1 ⟨0, cid, "user", req.Message, 0⟩ (by rw [h2])
  rw [h2] at hdb
  simp only at hdb
  have hrows := conversationRows_append w1.db w2.db
    { id := w1.db.msgSeq, conversationId := cid, role := "user",
      content := req.Message, createdAt := w1.db.clock }
    (by rw [hdb])
    (by
      intro m hmem
      rw [hg.1] at hmem
      exact Nat.le_of_lt (Nat.lt_of_lt_of_le (hclock m hmem) hg.2))
  simp only at hrows
  refine ⟨hcalls, hchat, hm, List.perm_insertionSort _ _, ?_, hrows, ?_⟩
  · rw [hm, List.pairwise_map]
    exact conversationRows_sorted w2.db cid
  · rw [hchat, hm, hrows]
    simp [scanMessage]

set_option maxRecDepth 20000 in
/-- C8, on a conversation that already holds one exchange: the history handed to
generation is that exchange followed by the current user message. -/
theorem ProcessUserMessage_history_witness :
    sampleWorldWithHistory.db.clockAhead ∧
      (newEvents sampleWorldWithHistory
          (ProcessUserMessage (sampleEnv [] 1536 200) sampleRetriever sampleWorldWithHistory
            sampleRequest).2).filter isGenerateResponseFromContext
        = [.generateResponseFromContext "Apa itu RAG?"
            (toChatMessages
              [⟨1, 1, "user", "Halo", 2⟩, ⟨2, 1, "assistant", "Hai", 3⟩,
               ⟨3, 1, "user", "Apa itu RAG?", 4⟩] [])] ∧
      toChatMessages
          [⟨1, 1, "user", "Halo", 2⟩, ⟨2, 1, "assistant", "Hai", 3⟩,
           ⟨3, 1, "user", "Apa itu RAG?", 4⟩] []
        = [⟨"user", "Halo"⟩, ⟨"assistant", "Hai"⟩, ⟨"user", "Apa itu RAG?"⟩] :=
  ⟨by decide,
    (ProcessUserMessage_history (sampleEnv [] 1536 200) sampleRetriever sampleWorldWithHistory
      sampleRequest 1
      (afterResolve (sampleEnv [] 1536 200) sampleWorldWithHistory sampleRequest)
      (afterUserAppend (sampleEnv [] 1536 200) sampleWorldWithHistory sampleRequest 1)
      (afterHistory (sampleEnv [] 1536 200) sampleWorldWithHistory sampleRequest 1)
      [⟨1, 1, "user", "Halo", 2⟩, ⟨2, 1, "assistant", "Hai", 3⟩,
       ⟨3, 1, "user", "Apa itu RAG?", 4⟩]
      (by decide) (by rfl) (by rfl) (by rfl)).1,
    by rfl⟩

/-! ## C9 -/

theorem SaveDocument_trace (env : Env) (w : World) (doc : Document) :
    (SaveDocument env w doc).2.trace = w.trace ++ [.saveDocument doc.Title doc.Content] := by
  unfold SaveDocument
  simp only
  split
  · rfl
  · split
    · rfl
    · split <;> rfl

theorem SaveDocument_error_db (env : Env) (w : World) (doc : Document) (e : String)
    (h : (SaveDocument env w doc).1 = .error e) :
    (SaveDocument env w doc).2.db.documents = w.db.documents ∧
      (SaveDocument env w doc).2.db.embeddings = w.db.embeddings := by
  unfold SaveDocument at h ⊢
  simp only at h ⊢
  split
  · exact ⟨rfl, rfl⟩
  · split
    · exact ⟨rfl, rfl⟩
    · split
      · exact ⟨rfl, rfl⟩
      · next h1 _ h2 _ h3 =>
        rw [h1] at h
        simp only at h
        rw [h2] at h
        simp only at h
        rw [h3] at h
        cases h

theorem SaveDocument_ok_db (env : Env) (w : World) (doc : Document) (docID : Int)
    (h : (SaveDocument env w doc).1 = .ok docID) :
    docID = w.db.docSeq ∧
      (SaveDocument env w doc).2.db.documents
        = w.db.documents ++
            [{ id := docID, title := doc.Title, content := doc.Content,
               metadata := doc.Metadata, createdAt := w.db.clock }] ∧
      (SaveDocument env w doc).2.db.embeddings = w.db.embeddings := by
  unfold SaveDocument at h ⊢
  simp only at h ⊢
  split at h
  · cases h
  · split at h
    · cases h
    · split at h
      · cases h
      · simp only [Except.ok.injEq] at h
        subst h
        exact ⟨rfl, rfl, rfl⟩

theorem SaveEmbedding_trace (env : Env) (w : World) (docID : Int) (v : List Float32) :
    (SaveEmbedding env w docID v).2.trace = w.trace ++ [.saveEmbedding docID v] := by
  unfold SaveEmbedding
  simp only
  split <;> rfl

theorem SaveEmbedding_error_db (env : Env) (w : World) (docID : Int) (v : List Float32)
    (e : String) (h : (SaveEmbedding env w docID v).1 = .error e) :
    (SaveEmbedding env w docID v).2.db = w.db := by
  unfold SaveEmbedding at h ⊢
  simp only at h ⊢
  split at h
  · rfl
  · cases h

theorem SaveEmbedding_ok_db (env : Env) (w : World) (docID : Int) (v : List Float32)
    (h : (SaveEmbedding env w docID v).1 = .ok ()) :
    (SaveEmbedding env w docID v).2.db.documents = w.db.documents ∧
      (SaveEmbedding env w docID v).2.db.embeddings
        = w.db.embeddings ++ [{ documentId := docID, embedding := vectorStr env v }] := by
  unfold SaveEmbedding at h ⊢
  simp only at h ⊢
  split at h
  · cases h
  · exact ⟨rfl, rfl⟩

/-- C9: `ProcessDocument` runs `SaveDocument`, `CreateEmbedding` on the content and
`SaveEmbedding`, in this order, and stops at the first failure.  If `SaveDocument`
fails nothing else is called.  Once it succeeded with id `docID` the document row is
in the table; if then `CreateEmbedding` or `SaveEmbedding` fails, the caller gets an
error (in Go: id 0 and the error), the database is as `SaveDocument` left it (the row
stays, no embedding row was written: there is no rollback).  If all three steps
succeed the result is `docID` and the embedding row `(docID, literal of v)` was
appended, `v` being the vector returned for the content. -/
theorem ProcessDocument_steps (env : Env) (api : OpenAIEmbedding) (w : World)
    (doc : Document) :
    (∀ e w1, SaveDocument env w doc = (.error e, w1) →
      ProcessDocument env api w doc = (.error ("error saving document: " ++ e), w1) ∧
        newEvents w w1 = [.saveDocument doc.Title doc.Content] ∧
        w1.db.documents = w.db.documents ∧ w1.db.embeddings = w.db.embeddings) ∧
    (∀ docID w1, SaveDocument env w doc = (.ok docID, w1) →
      w1.db.documents
          = w.db.documents ++
              [{ id := docID, title := doc.Title, content := doc.Content,
                 metadata := doc.Metadata, createdAt := w.db.clock }] ∧
        w1.db.embeddings = w.db.embeddings ∧
        (∀ e w2, CreateEmbedding env api w1 doc.Content = (.error e, w2) →
          ProcessDocument env api w doc = (.error ("error creating embedding: " ++ e), w2) ∧
            w2.db = w1.db ∧
            newEvents w w2
              = [.saveDocument doc.Title doc.Content, .createEmbedding doc.Content]) ∧
        (∀ v w2, CreateEmbedding env api w1 doc.Content = (.ok v, w2) →
          (∀ e w3, SaveEmbedding env w2 docID v = (.error e, w3) →
            ProcessDocument env api w doc = (.error ("error saving embedding: " ++ e), w3) ∧
              w3.db = w1.db ∧
              newEvents w w3
                = [.saveDocument doc.Title doc.Content, .createEmbedding doc.Content,
                    .saveEmbedding docID v]) ∧
          (∀ w3, SaveEmbedding env w2 docID v = (.ok (), w3) →
            ProcessDocument env api w doc = (.ok docID, w3) ∧
              w3.db.documents = w1.db.documents ∧
              w3.db.embeddings
                = w.db.embeddings ++ [{ documentId := docID, embedding := vectorStr env v }] ∧
              newEvents w w3
                = [.saveDocument doc.Title doc.Content, .createEmbedding doc.Content,
                    .saveEmbedding docID v]))) := by
  have htd := SaveDocument_trace env w doc
  constructor
  · intro e w1 h
    have hdb := SaveDocument_error_db env w doc e (by rw [h])
    rw [h] at htd hdb
    refine ⟨?_, newEvents_append _ _ _ htd, hdb.1, hdb.2⟩
    unfold ProcessDocument
    rw [h]
  · intro docID w1 h
    have hdb := SaveDocument_ok_db env w doc docID (by rw [h])
    rw [h] at htd hdb
    simp only at htd hdb
    refine ⟨hdb.2.1, hdb.2.2, ?_, ?_⟩
    · intro e w2 hc
      have htc := CreateEmbedding_trace env api w1 doc.Content
      have hcd := CreateEmbedding_db env api w1 doc.Content
      rw [hc] at htc hcd
      simp only at htc hcd
      refine ⟨?_, hcd, ?_⟩
      · unfold ProcessDocument
        rw [h]
        simp only
        rw [hc]
      · apply newEvents_append
        rw [htc, htd]
        simp
    · intro v w2 hc
      have htc := CreateEmbedding_trace env api w1 doc.Content
      have hcd := CreateEmbedding_db env api w1 doc.Content
      rw [hc] at htc hcd
      simp only at htc hcd
      have hts := SaveEmbedding_trace env w2 docID v
      constructor
      · intro e w3 hs
        have hsd := SaveEmbedding_error_db env w2 docID v e (by rw [hs])
        rw [hs] at hts hsd
        simp only at hts hsd
        refine ⟨?_, by rw [hsd, hcd], ?_⟩
        · unfold ProcessDocument
          rw [h]
          simp only
          rw [hc]
          simp only
          rw [hs]
        · apply newEvents_append
          rw [hts, htc, htd]
          simp
      · intro w3 hs
        have hsd := SaveEmbedding_ok_db env w2 docID v (by rw [hs])
        rw [hs] at hts hsd
        simp only at hts hsd
        refine ⟨?_, by rw [hsd.1, hcd], by rw [hsd.2, hcd, hdb.2.2], ?_⟩
        · unfold ProcessDocument
          rw [h]
          simp only
          rw [hc]
          simp only
          rw [hs]
        · apply newEvents_append
          rw [hts, htc, htd]
          simp

/-- C9, on the empty store: with the embedding endpoint answering (3 database
operations, none failing) the document gets id 1 and its embedding row; with the
insert of the embedding (database operation 4 of the call) failing, the caller gets
an error and the document row stays without an embedding row. -/
theorem ProcessDocument_steps_witness :
    ProcessDocument (sampleEnv [] 1 200) sampleAPI World.init sampleDocument
        = (.ok 1, (ProcessDocument (sampleEnv [] 1 200) sampleAPI World.init sampleDocument).2) ∧
      (ProcessDocument (sampleEnv [] 1 200) sampleAPI World.init sampleDocument).2.db.embeddings
        = [{ documentId := 1, embedding := "[0.000000]" }] ∧
      (ProcessDocument (sampleEnv [4] 1 200) sampleAPI World.init sampleDocument).1
        = .error "error saving embedding: error inserting embedding: connection refused" ∧
      (ProcessDocument (sampleEnv [4] 1 200) sampleAPI World.init sampleDocument).2.db.documents
        = [{ id := 1, title := "Judul", content := "Isi", metadata := [], createdAt := 0 }] ∧
      (ProcessDocument (sampleEnv [4] 1 200) sampleAPI World.init sampleDocument).2.db.embeddings
        = [] :=
  have hok := ((((ProcessDocument_steps (sampleEnv [] 1 200) sampleAPI World.init
      sampleDocument).2 1
      (SaveDocument (sampleEnv [] 1 200) World.init sampleDocument).2 (by rfl)).2.2.2
      [⟨0⟩]
      (CreateEmbedding (sampleEnv [] 1 200) sampleAPI
        (SaveDocument (sampleEnv [] 1 200) World.init sampleDocument).2 "Isi").2
      (by rfl)).2
      (ProcessDocument (sampleEnv [] 1 200) sampleAPI World.init sampleDocument).2 (by rfl))
  ⟨hok.1, by rfl, by rfl, by rfl, by rfl⟩

/-! ## C10 -/

/-- C10 (the code departs from the claim): `ProcessDocument` does not compare the
length of the vector with the declared dimension.  On the empty store, with an
embedding endpoint returning a vector of 3 components (not 1536) and no failing
database operation, `SaveEmbedding` is called with that vector, the row is written
and the call succeeds with id 1. -/
theorem ProcessDocument_wrong_dimension_stored :
    (CreateEmbedding (sampleEnv [] 3 200) sampleAPI
        (SaveDocument (sampleEnv [] 3 200) World.init sampleDocument).2 "Isi").1
        = .ok (List.replicate 3 ⟨0⟩) ∧
      (List.replicate 3 (⟨0⟩ : Float32)).length ≠ embeddingDimension ∧
      (ProcessDocument (sampleEnv [] 3 200) sampleAPI World.init sampleDocument).1 = .ok 1 ∧
      newEvents World.init
          (ProcessDocument (sampleEnv [] 3 200) sampleAPI World.init sampleDocument).2
        = [.saveDocument "Judul" "Isi", .createEmbedding "Isi",
            .saveEmbedding 1 (List.replicate 3 ⟨0⟩)] ∧
      (ProcessDocument (sampleEnv [] 3 200) sampleAPI World.init sampleDocument).2.db.embeddings
        = [{ documentId := 1, embedding := "[0.000000,0.000000,0.000000]" }] :=
  ⟨by rfl, by decide, by rfl, by rfl, by rfl⟩

/-! ## The reasons for which no prompt is built -/

theorem BuildPromptWithContext_failure_reasons (env : Env) (r : Retriever) (w : World)
    (userQuery : String) :
    (∀ e w1, CreateEmbedding env r.embeddingAPI w userQuery = (.error e, w1) →
      ∃ err, (BuildPromptWithContext env r w userQuery).1 = .error err) ∧
    (∀ v w1, CreateEmbedding env r.embeddingAPI w userQuery = (.ok v, w1) →
      (v.length ≠ embeddingDimension →
        ∃ err, (BuildPromptWithContext env r w userQuery).1 = .error err) ∧
      (∀ e w2, FindSimilarDocuments env w1 v r.maxResults = (.error e, w2) →
        ∃ err, (BuildPromptWithContext env r w userQuery).1 = .error err) ∧
      (∀ w2, v.length = embeddingDimension →
        FindSimilarDocuments env w1 v r.maxResults = (.ok [], w2) →
        ∃ err, (BuildPromptWithContext env r w userQuery).1 = .error err)) := by
  refine ⟨?_, ?_⟩
  · intro e w1 h
    unfold BuildPromptWithContext RetrieveRelevantDocuments
    rw [h]
    exact ⟨_, rfl⟩
  · intro v w1 h
    refine ⟨?_, ?_, ?_⟩
    · intro hne
      unfold BuildPromptWithContext RetrieveRelevantDocuments
      rw [h]
      simp only
      rw [if_pos hne]
      exact ⟨_, rfl⟩
    · intro e w2 hf
      unfold BuildPromptWithContext RetrieveRelevantDocuments
      rw [h]
      simp only
      by_cases hne : v.length ≠ embeddingDimension
      · rw [if_pos hne]
        exact ⟨_, rfl⟩
      · rw [if_neg hne, hf]
        exact ⟨_, rfl⟩
    · intro w2 heq hf
      unfold BuildPromptWithContext RetrieveRelevantDocuments
      rw [h]
      simp only
      rw [if_neg (not_not.2 heq), hf]
      exact ⟨_, rfl⟩

/-! ## Stores built by the operations keep their messages behind the clock -/

theorem clockAhead_empty : Store.empty.clockAhead := by
  intro m hm
  cases hm

theorem clockAhead_of_frame (db db2 : Store) (hm : db2.messages = db.messages)
    (hc : db.clock ≤ db2.clock) (h : db.clockAhead) : db2.clockAhead := by
  intro m hmem
  rw [hm] at hmem
  exact Nat.lt_of_lt_of_le (h m hmem) hc

theorem SaveMessage_clockAhead (env : Env) (w : World) (msg : Message)
    (h : w.db.clockAhead) : (SaveMessage env w msg).2.db.clockAhead := by
  unfold SaveMessage
  simp only
  split
  · exact h
  · intro m hmem
    simp only [World.tick, World.setDb, World.emit, List.mem_append, List.mem_singleton] at hmem ⊢
    rcases hmem with hmem | rfl
    · exact Nat.lt_succ_of_lt (h m hmem)
    · exact Nat.lt_succ_self _

theorem ChatCompletion_db (env : Env) (o : OpenAIEmbedding) (w : World)
    (messages : List ChatCompletionMessage) :
    (ChatCompletion env o w messages).2.db = w.db := by
  unfold ChatCompletion
  simp only [World.emit, World.tick]
  split <;> try rfl
  split <;> try rfl
  split <;> rfl

theorem RetrieveRelevantDocuments_db (env : Env) (r : Retriever) (w : World)
    (query : String) : (RetrieveRelevantDocuments env r w query).2.db = w.db := by
  have hce := CreateEmbedding_db env r.embeddingAPI w query
  unfold RetrieveRelevantDocuments
  revert hce
  generalize CreateEmbedding env r.embeddingAPI w query = c
  obtain ⟨res, w1⟩ := c
  intro hce
  simp only at hce
  cases res with
  | error e => exact hce
  | ok v =>
    simp only
    split
    · exact hce
    · have hfs := FindSimilarDocuments_db env w1 v r.maxResults
      revert hfs
      generalize FindSimilarDocuments env w1 v r.maxResults = f
      obtain ⟨a, b⟩ := f
      intro hfs
      simp only at hfs
      cases a <;> exact hfs.trans hce

theorem GenerateResponseFromContext_db (env : Env) (r : Retriever) (w : World)
    (userQuery : String) (hist : List ChatMessage) :
    (GenerateResponseFromContext env r w userQuery hist).2.db = w.db := by
  have hb : (BuildPromptWithContext env r
      (w.emit (.generateResponseFromContext userQuery hist)) userQuery).2.db = w.db := by
    rw [BuildPromptWithContext_world, RetrieveRelevantDocuments_db]
    rfl
  unfold GenerateResponseFromContext
  simp only
  revert hb
  generalize BuildPromptWithContext env r
    (w.emit (.generateResponseFromContext userQuery hist)) userQuery = c
  obtain ⟨res, w1⟩ := c
  intro hb
  simp only at hb
  cases res with
  | error e => exact hb
  | ok p =>
    simp only
    have hc := ChatCompletion_db env r.embeddingAPI w1 (completionMessages hist p)
    revert hc
    generalize ChatCompletion env r.embeddingAPI w1 (completionMessages hist p) = cc
    obtain ⟨a, b⟩ := cc
    intro hc
    simp only at hc
    cases a <;> exact hc.trans hb

theorem ProcessUserMessage_clockAhead (env : Env) (r : Retriever) (w : World)
    (req : ChatRequest) (h : w.db.clockAhead) :
    (ProcessUserMessage env r w req).2.db.clockAhead := by
  have hg := GetConversationBySessionID_messages env w req.SessionID
  unfold ProcessUserMessage
  revert hg
  generalize GetConversationBySessionID env w req.SessionID = c1
  obtain ⟨res1, w1⟩ := c1
  intro hg
  simp only at hg
  have h1 : w1.db.clockAhead := clockAhead_of_frame w.db w1.db hg.1 hg.2 h
  cases res1 with
  | error e => exact h1
  | ok cid =>
    simp only
    have hs := SaveMessage_clockAhead env w1 ⟨0, cid, "user", req.Message, 0⟩ h1
    revert hs
    generalize SaveMessage env w1 ⟨0, cid, "user", req.Message, 0⟩ = c2
    obtain ⟨res2, w2⟩ := c2
    intro h2
    simp only at h2
    cases res2 with
    | error e => exact h2
    | ok u =>
      simp only
      have hm := (GetConversationMessages_spec env w2 cid).2.1
      revert hm
      generalize GetConversationMessages env w2 cid = c3
      obtain ⟨res3, w3⟩ := c3
      intro hm
      simp only at hm
      have h3 : w3.db.clockAhead := by rw [hm]; exact h2
      cases res3 with
      | error e => exact h3
      | ok msgs =>
        simp only
        have hgen := GenerateResponseFromContext_db env r w3 req.Message
          (toChatMessages msgs [])
        revert hgen
        generalize GenerateResponseFromContext env r w3 req.Message
          (toChatMessages msgs []) = g
        obtain ⟨gres, wg⟩ := g
        intro hgen
        simp only at hgen
        have h4 : wg.db.clockAhead := by rw [hgen]; exact h3
        cases gres with
        | error err =>
          simp only
          have hs := SaveMessage_clockAhead env
            (wg.emit (.log ("Error generating response: " ++ err ++
              ", will return generic response")))
            ⟨0, cid, "assistant", genericReply, 0⟩ h4
          revert hs
          generalize SaveMessage env
            (wg.emit (.log ("Error generating response: " ++ err ++
              ", will return generic response")))
            ⟨0, cid, "assistant", genericReply, 0⟩ = sm
          obtain ⟨a, b⟩ := sm
          intro hs
          cases a <;> exact hs
        | ok reply =>
          simp only
          have hs := SaveMessage_clockAhead env wg ⟨0, cid, "assistant", reply, 0⟩ h4
          revert hs
          generalize SaveMessage env wg ⟨0, cid, "assistant", reply, 0⟩ = sm
          obtain ⟨a, b⟩ := sm
          intro hs
          cases a <;> exact hs

/-! ## C11 -/

theorem scanDocuments_spec (env : Env) (rows : List (DocumentRow × Rat)) (w : World)
    (acc : List DocumentWithScore) :
    (∀ results, (scanDocuments env rows w acc).1 = .ok results →
        results = acc ++ rows.map scanDocument) ∧
      (env.noFaults → (scanDocuments env rows w acc).1 = .ok (acc ++ rows.map scanDocument)) := by
  induction rows generalizing w acc with
  | nil =>
    refine ⟨?_, fun _ => by simp [scanDocuments]⟩
    intro results h
    simp only [scanDocuments, Except.ok.injEq] at h
    simp [h]
  | cons row rest ih =>
    obtain ⟨d, dist⟩ := row
    unfold scanDocuments
    constructor
    · intro results h
      split at h
      · cases h
      · rw [(ih w.tick _).1 results h]
        simp [scanDocument]
    · intro hnf
      rw [hnf w.ops]
      simp only
      rw [(ih w.tick _).2 hnf]
      simp [scanDocument]

theorem similarRows_sorted (env : Env) (db : Store) (vs : String) (k : Nat) :
    (similarRows env db vs k).Pairwise fun a b => a.2 ≤ b.2 := by
  haveI : IsTotal (DocumentRow × Rat) (fun a b => a.2 ≤ b.2) :=
    ⟨fun a b => le_total a.2 b.2⟩
  haveI : IsTrans (DocumentRow × Rat) (fun a b => a.2 ≤ b.2) :=
    ⟨fun _ _ _ h1 h2 => le_trans h1 h2⟩
  have hs : ((joinEmbeddings env db vs).insertionSort fun a b => a.2 ≤ b.2).Pairwise
      fun a b => a.2 ≤ b.2 :=
    List.sorted_insertionSort (fun a b : DocumentRow × Rat => a.2 ≤ b.2) _
  exact hs.sublist (List.take_sublist _ _)

theorem mem_joinEmbeddings (env : Env) (db : Store) (vs : String) (row : DocumentRow × Rat)
    (h : row ∈ joinEmbeddings env db vs) :
    ∃ e ∈ db.embeddings, e.documentId = row.1.id ∧ row.1 ∈ db.documents ∧
      row.2 = env.cosineDistance e.embedding vs := by
  unfold joinEmbeddings at h
  rw [List.mem_flatMap] at h
  obtain ⟨e, he, hrow⟩ := h
  rw [List.mem_map] at hrow
  obtain ⟨d, hd, rfl⟩ := hrow
  rw [List.mem_filter] at hd
  exact ⟨e, he, by simpa using hd.2, hd.1, rfl⟩

theorem mem_similarRows (env : Env) (db : Store) (vs : String) (k : Nat)
    (row : DocumentRow × Rat) (h : row ∈ similarRows env db vs k) :
    row ∈ joinEmbeddings env db vs :=
  (List.perm_insertionSort _ _).subset (List.mem_of_mem_take h)

theorem FindSimilarDocuments_result (env : Env) (w : World) (q : List Float32) (k : Nat) :
    (∀ results w2, FindSimilarDocuments env w q k = (.ok results, w2) →
        results = (similarRows env w.db (vectorStr env q) k).map scanDocument) ∧
      (env.noFaults →
        (FindSimilarDocuments env w q k).1
          = .ok ((similarRows env w.db (vectorStr env q) k).map scanDocument)) := by
  have hk : ¬ ((k : Int) < 0) := by omega
  have hs := scanDocuments_spec env
    (similarRows env w.db (vectorStr env q) k)
    (w.emit (.findSimilarDocuments q k)).tick []
  unfold FindSimilarDocuments
  simp only [if_neg hk, Int.toNat_natCast]
  have hdb : (w.emit (.findSimilarDocuments q k)).tick.db = w.db := rfl
  rw [hdb]
  revert hs
  generalize scanDocuments env (similarRows env w.db (vectorStr env q) k)
    (w.emit (.findSimilarDocuments q k)).tick [] = sc
  obtain ⟨res, w1⟩ := sc
  rintro ⟨hs1, hs2⟩
  simp only [List.nil_append] at hs1 hs2
  constructor
  · intro results w2 h
    split at h
    · cases h
    · cases res with
      | error e => cases h
      | ok rs =>
        simp only at h
        split at h
        · cases h
        · simp only [Prod.mk.injEq, Except.ok.injEq] at h
          rw [← h.1]
          exact hs1 rs rfl
  · intro hnf
    have hres := hs2 hnf
    subst hres
    rw [hnf]
    simp only
    rw [hnf]

/-- C11: `FindSimilarDocuments` with limit `k` returns (whenever it returns without
error, and it does when no database operation fails) the first `k` rows of the join
of the embedding rows with their documents, ordered by ascending distance to the
query, each scanned with score `1 - distance`.  Hence the scores are in descending
order, there are at most `k` results, `k = 0` and an empty embedding table both give
the empty list and not an error, and every result is a document of the table that
has an embedding row. -/
theorem FindSimilarDocuments_topk (env : Env) (w : World) (q : List Float32) (k : Nat) :
    (∀ results w2, FindSimilarDocuments env w q k = (.ok results, w2) →
        results = (similarRows env w.db (vectorStr env q) k).map scanDocument) ∧
      (env.noFaults →
        (FindSimilarDocuments env w q k).1
          = .ok ((similarRows env w.db (vectorStr env q) k).map scanDocument)) ∧
      (∃ sorted : List (DocumentRow × Rat),
        sorted.Perm (joinEmbeddings env w.db (vectorStr env q)) ∧
        sorted.Pairwise (fun a b => a.2 ≤ b.2) ∧
        similarRows env w.db (vectorStr env q) k = sorted.take k) ∧
      ((similarRows env w.db (vectorStr env q) k).map scanDocument).Pairwise
        (fun a b => b.Score ≤ a.Score) ∧
      ((similarRows env w.db (vectorStr env q) k).map scanDocument).length ≤ k ∧
      (k = 0 → (similarRows env w.db (vectorStr env q) k).map scanDocument = []) ∧
      (w.db.embeddings = [] →
        (similarRows env w.db (vectorStr env q) k).map scanDocument = []) ∧
      (∀ row ∈ similarRows env w.db (vectorStr env q) k,
        ∃ e ∈ w.db.embeddings, e.documentId = (scanDocument row).ID ∧ row.1 ∈ w.db.documents ∧
          (scanDocument row).Score = 1 - env.cosineDistance e.embedding (vectorStr env q)) := by
  obtain ⟨hres1, hres2⟩ := FindSimilarDocuments_result env w q k
  refine ⟨hres1, hres2, ?_, ?_, ?_, ?_, ?_, ?_⟩
  · haveI : IsTotal (DocumentRow × Rat) (fun a b => a.2 ≤ b.2) :=
      ⟨fun a b => le_total a.2 b.2⟩
    haveI : IsTrans (DocumentRow × Rat) (fun a b => a.2 ≤ b.2) :=
      ⟨fun _ _ _ h1 h2 => le_trans h1 h2⟩
    exact ⟨_, List.perm_insertionSort _ _,
      List.sorted_insertionSort (fun a b : DocumentRow × Rat => a.2 ≤ b.2) _, rfl⟩
  · rw [List.pairwise_map]
    refine (similarRows_sorted env w.db (vectorStr env q) k).imp ?_
    intro a b hab
    simp only [scanDocument]
    linarith
  · rw [List.length_map]
    unfold similarRows
    rw [List.length_take]
    exact Nat.min_le_left _ _
  · intro h0
    subst h0
    simp [similarRows]
  · intro he
    simp [similarRows, joinEmbeddings, he]
  · intro row hrow
    obtain ⟨e, he, hid, hdoc, hdist⟩ :=
      mem_joinEmbeddings env w.db (vectorStr env q) row
        (mem_similarRows env w.db (vectorStr env q) k row hrow)
    exact ⟨e, he, hid, hdoc, by simp [scanDocument, hdist]⟩

theorem sampleEnvDistances_noFaults : sampleEnvDistances.noFaults :=
  fun _ => rfl

/-- C11, on four documents of which three are embedded, at similarities 0.5, 0.1
and 0.9 in table order: with `k = 2` the result is the two most similar documents,
scores 0.9 then 0.5; the document without embedding is not returned. -/
theorem FindSimilarDocuments_topk_witness :
    (FindSimilarDocuments sampleEnvDistances sampleWorldThree [⟨0⟩] 2).1
        = .ok ((similarRows sampleEnvDistances sampleWorldThree.db
            (vectorStr sampleEnvDistances [⟨0⟩]) 2).map scanDocument) ∧
      ((similarRows sampleEnvDistances sampleWorldThree.db
          (vectorStr sampleEnvDistances [⟨0⟩]) 2).map scanDocument).map (fun d => d.Score)
        = [9 / 10, 1 / 2] ∧
      ((similarRows sampleEnvDistances sampleWorldThree.db
          (vectorStr sampleEnvDistances [⟨0⟩]) 2).map scanDocument).map (fun d => d.ID)
        = [3, 1] :=
  ⟨(FindSimilarDocuments_topk sampleEnvDistances sampleWorldThree [⟨0⟩] 2).2.1
      sampleEnvDistances_noFaults,
    by
      simp [similarRows, joinEmbeddings, sampleWorldThree, sampleStoreThree, sampleEnvDistances,
        List.insertionSort, List.orderedInsert]
      norm_num [scanDocument],
    by
      simp [similarRows, joinEmbeddings, sampleWorldThree, sampleStoreThree, sampleEnvDistances,
        List.insertionSort, List.orderedInsert]
      norm_num [scanDocument]⟩

/-! ## C12 -/

theorem latestConversation_eq_none (db : Store) (s : String)
    (h : latestConversation db s = none) :
    (db.conversations.filter fun c => c.sessionId = s) = [] := by
  unfold latestConversation at h
  rw [List.head?_eq_none_iff] at h
  have hp := List.perm_insertionSort (fun a b : ConversationRow => b.createdAt ≤ a.createdAt)
    (db.conversations.filter fun c => c.sessionId = s)
  rw [h] at hp
  exact hp.symm.eq_nil

theorem latestConversation_of_none (db : Store) (s : String) (row : ConversationRow)
    (hs : row.sessionId = s) (h : latestConversation db s = none) (db2 : Store)
    (h2 : db2.conversations = db.conversations ++ [row]) :
    latestConversation db2 s = some row := by
  have hf := latestConversation_eq_none db s h
  unfold latestConversation
  rw [h2, List.filter_append, hf]
  simp [hs, List.insertionSort, List.orderedInsert]

theorem latestConversation_mem (db : Store) (s : String) (c : ConversationRow)
    (h : latestConversation db s = some c) : c ∈ db.conversations ∧ c.sessionId = s := by
  unfold latestConversation at h
  have hm := List.mem_of_mem_head? h
  have hm2 := (List.perm_insertionSort _ _).subset hm
  rw [List.mem_filter] at hm2
  exact ⟨hm2.1, by simpa using hm2.2⟩

theorem GetConversationBySessionID_found (env : Env) (w : World) (sessionID : String)
    (c : ConversationRow) (hf : env.dbFault w.ops = none)
    (hl : latestConversation w.db sessionID = some c) :
    GetConversationBySessionID env w sessionID
      = (.ok c.id, (w.emit (.getConversationBySessionID sessionID)).tick) := by
  unfold GetConversationBySessionID
  simp only
  have h1 : env.dbFault (w.emit (.getConversationBySessionID sessionID)).ops = none := hf
  have h2 : latestConversation (w.emit (.getConversationBySessionID sessionID)).db sessionID
      = some c := hl
  rw [h1]
  simp only
  rw [h2]

theorem GetConversationBySessionID_created (env : Env) (w : World) (sessionID : String)
    (hf : env.dbFault w.ops = none) (hf2 : env.dbFault (w.ops + 1) = none)
    (hl : latestConversation w.db sessionID = none) :
    ∃ w1, GetConversationBySessionID env w sessionID = (.ok w.db.convSeq, w1) ∧
      w1.db = w.db.addConversation sessionID ∧
      w1.ops = w.ops + 2 ∧
      w1.trace = w.trace ++
        [.getConversationBySessionID sessionID, .saveConversation sessionID] := by
  unfold GetConversationBySessionID
  simp only
  have h1 : env.dbFault (w.emit (.getConversationBySessionID sessionID)).ops = none := hf
  have h2 : latestConversation (w.emit (.getConversationBySessionID sessionID)).db sessionID
      = none := hl
  rw [h1]
  simp only
  rw [h2]
  simp only
  unfold SaveConversation
  simp only
  have h3 : env.dbFault (((w.emit (.getConversationBySessionID sessionID)).tick).emit
      (.saveConversation sessionID)).ops = none := hf2
  rw [h3]
  exact ⟨_, rfl, rfl, rfl, by simp [World.tick, World.emit, World.setDb]⟩

/-- C12: when no database operation fails, two successive calls of
`GetConversationBySessionID` with the same session key both succeed and return the
same conversation id; the second call leaves the database as it is and makes no
`SaveConversation` call.  The first call creates a conversation (one
`SaveConversation` call, one row appended) exactly when no row with that session key
exists; otherwise it changes nothing. -/
theorem GetConversationBySessionID_idempotent (env : Env) (w : World) (sessionID : String)
    (hnf : env.noFaults) :
    ∃ id w1 w2,
      GetConversationBySessionID env w sessionID = (.ok id, w1) ∧
      GetConversationBySessionID env w1 sessionID = (.ok id, w2) ∧
      w2.db = w1.db ∧
      callsOf isSaveConversation w1 w2 = 0 ∧
      ((∃ c ∈ w.db.conversations, c.sessionId = sessionID) →
        w1.db = w.db ∧ callsOf isSaveConversation w w1 = 0) ∧
      ((∀ c ∈ w.db.conversations, c.sessionId ≠ sessionID) →
        w1.db.conversations
            = w.db.conversations ++ [{ id := id, sessionId := sessionID, createdAt := w.db.clock }] ∧
          callsOf isSaveConversation w w1 = 1) := by
  have hcall : ∀ v : World, callsOf isSaveConversation v
      (v.emit (.getConversationBySessionID sessionID)).tick = 0 := fun v =>
    callsOf_eq_zero _ _ _ [.getConversationBySessionID sessionID] rfl
      (by intro e he; rw [List.mem_singleton.1 he]; rfl)
  cases hl : latestConversation w.db sessionID with
  | some c =>
    obtain ⟨hc1, hc2⟩ := latestConversation_mem w.db sessionID c hl
    have h1 := GetConversationBySessionID_found env w sessionID c (hnf _) hl
    have h2 := GetConversationBySessionID_found env
      (w.emit (.getConversationBySessionID sessionID)).tick sessionID c (hnf _) hl
    refine ⟨c.id, _, _, h1, h2, rfl, hcall _, fun _ => ⟨rfl, hcall _⟩, ?_⟩
    intro hall
    exact absurd hc2 (hall c hc1)
  | none =>
    have hnone : ∀ c ∈ w.db.conversations, c.sessionId ≠ sessionID := by
      intro c hc hs
      have hf := latestConversation_eq_none w.db sessionID hl
      have : c ∈ w.db.conversations.filter fun c => c.sessionId = sessionID :=
        List.mem_filter.2 ⟨hc, by simpa using hs⟩
      rw [hf] at this
      cases this
    obtain ⟨w1, h1, hdb, -, htr⟩ :=
      GetConversationBySessionID_created env w sessionID (hnf _) (hnf _) hl
    have hl2 : latestConversation w1.db sessionID
        = some { id := w.db.convSeq, sessionId := sessionID, createdAt := w.db.clock } :=
      latestConversation_of_none w.db sessionID _ rfl hl w1.db (by rw [hdb]; rfl)
    have h2 := GetConversationBySessionID_found env w1 sessionID _ (hnf _) hl2
    refine ⟨w.db.convSeq, w1, _, h1, h2, rfl, hcall _, ?_, ?_⟩
    · rintro ⟨c, hc, hs⟩
      exact absurd hs (hnone c hc)
    · intro _
      refine ⟨by rw [hdb]; rfl, ?_⟩
      unfold callsOf
      rw [newEvents_append _ _ _ htr]
      rfl

/-- C12, on the empty store: the first call creates conversation 1, the second
call returns 1 again and leaves the database as the first call left it. -/
theorem GetConversationBySessionID_idempotent_witness :
    (GetConversationBySessionID sampleEnvDistances World.init "s1").1 = .ok 1 ∧
      (GetConversationBySessionID sampleEnvDistances
        (GetConversationBySessionID sampleEnvDistances World.init "s1").2 "s1").1 = .ok 1 ∧
      (GetConversationBySessionID sampleEnvDistances
        (GetConversationBySessionID sampleEnvDistances World.init "s1").2 "s1").2.db
        = (GetConversationBySessionID sampleEnvDistances World.init "s1").2.db := by
  obtain ⟨id, w1, w2, h1, h2, hdb, -⟩ :=
    GetConversationBySessionID_idempotent sampleEnvDistances World.init "s1"
      sampleEnvDistances_noFaults
  have hfirst : (GetConversationBySessionID sampleEnvDistances World.init "s1").1 = .ok 1 := by
    rfl
  refine ⟨hfirst, ?_, ?_⟩
  · rw [h1] at hfirst ⊢
    simp only at hfirst ⊢
    rw [h2]
    exact hfirst
  · rw [h1]
    simp only
    rw [h2]
    exact hdb

/-! ## C14 -/

theorem contextLoop_eq (env : Env) (docs : List DocumentWithScore) (i : Nat) (acc : String) :
    contextLoop env i docs acc = acc ++ documentBlocks env i docs := by
  induction docs generalizing i acc with
  | nil => simp [contextLoop, documentBlocks]
  | cons doc rest ih =>
    simp only [contextLoop, documentBlocks, documentBlock, ih, String.append_assoc]

theorem promptMiddle_eq : promptMiddle = "\n\n" ++ "PERTANYAAN/PERMINTAAN PENGGUNA:" ++ "\n" := by
  decide

set_option maxRecDepth 100000 in
theorem promptTail_eq : promptTail = "\n\n" ++ "PANDUAN JAWABAN:" ++ guidanceText := by
  decide

theorem renderPrompt_eq_specPrompt (env : Env) (docs : List DocumentWithScore)
    (userQuery : String) : renderPrompt env docs userQuery = specPrompt env docs userQuery := by
  unfold renderPrompt specPrompt
  rw [contextLoop_eq, promptMiddle_eq, promptTail_eq]
  have h : ("INFORMASI KONTEKS:\n\n" : String) = "INFORMASI KONTEKS:" ++ "\n\n" := by decide
  rw [h]
  simp only [String.append_assoc]

theorem documentBlocks_append (env : Env) (l1 l2 : List DocumentWithScore) (i : Nat) :
    documentBlocks env i (l1 ++ l2)
      = documentBlocks env i l1 ++ documentBlocks env (i + l1.length) l2 := by
  induction l1 generalizing i with
  | nil => simp [documentBlocks]
  | cons d rest ih =>
    show documentBlock env i d ++ documentBlocks env (i + 1) (rest ++ l2)
      = documentBlock env i d ++ documentBlocks env (i + 1) rest
          ++ documentBlocks env (i + (rest.length + 1)) l2
    rw [ih, String.append_assoc, show i + 1 + rest.length = i + (rest.length + 1) by omega]

theorem BuildPromptWithContext_of_documents (env : Env) (r : Retriever) (w : World)
    (userQuery : String) (docs : List DocumentWithScore)
    (h : (RetrieveRelevantDocuments env r w userQuery).1 = .ok docs)
    (hne : 0 < docs.length) :
    (BuildPromptWithContext env r w userQuery).1 = .ok (renderPrompt env docs userQuery) := by
  unfold BuildPromptWithContext
  revert h
  generalize RetrieveRelevantDocuments env r w userQuery = c
  obtain ⟨res, w1⟩ := c
  intro h
  simp only at h
  subst h
  simp only
  rw [if_neg (by omega)]

/-- C14: when retrieval returns the non-empty list `docs` for the query, the prompt
returned by `BuildPromptWithContext` is the preamble, then the label
`INFORMASI KONTEKS:`, then one block per document in the retrieved order (the
document at position `i` with display index `i + 1`, its score as a percentage, its
title and its full content), then the label `PERTANYAAN/PERMINTAAN PENGGUNA:`
followed by the query, then the label `PANDUAN JAWABAN:` and the fixed guidance.
It depends on nothing but the query and the retrieved list. -/
theorem BuildPromptWithContext_template (env : Env) (r : Retriever) (w : World)
    (userQuery : String) (docs : List DocumentWithScore)
    (h : (RetrieveRelevantDocuments env r w userQuery).1 = .ok docs)
    (hne : 0 < docs.length) :
    (BuildPromptWithContext env r w userQuery).1 = .ok (specPrompt env docs userQuery) ∧
      (∀ l1 d l2, docs = l1 ++ d :: l2 →
        documentBlocks env 0 docs
          = documentBlocks env 0 l1
              ++ (("[Dokumen " ++ toString (l1.length + 1) ++ "] (Relevansi: "
                    ++ env.fmtPercent (d.Score * 100) ++ "%)\n"
                    ++ "Judul: " ++ d.Title ++ "\n"
                    ++ "Konten: " ++ d.Content ++ "\n\n")
                ++ documentBlocks env (l1.length + 1) l2)) ∧
      (∀ r2 w2, (RetrieveRelevantDocuments env r2 w2 userQuery).1 = .ok docs →
        (BuildPromptWithContext env r2 w2 userQuery).1
          = (BuildPromptWithContext env r w userQuery).1) := by
  have key : ∀ r2 w2, (RetrieveRelevantDocuments env r2 w2 userQuery).1 = .ok docs →
      (BuildPromptWithContext env r2 w2 userQuery).1 = .ok (specPrompt env docs userQuery) := by
    intro r2 w2 h2
    rw [← renderPrompt_eq_specPrompt]
    exact BuildPromptWithContext_of_documents env r2 w2 userQuery docs h2 hne
  refine ⟨key r w h, ?_, fun r2 w2 h2 => (key r2 w2 h2).trans (key r w h).symm⟩
  intro l1 d l2 hd
  rw [hd, documentBlocks_append]
  simp [documentBlocks, documentBlock]

set_option maxRecDepth 100000 in
/-- C14, on `sampleStore`: the prompt for one retrieved document, written out. -/
theorem BuildPromptWithContext_template_witness :
    (BuildPromptWithContext (sampleEnv [] 1536 200) sampleRetriever sampleWorld
        "Apa itu RAG?").1
        = .ok (specPrompt (sampleEnv [] 1536 200) [sampleScored] "Apa itu RAG?") ∧
      specPrompt (sampleEnv [] 1536 200) [sampleScored] "Apa itu RAG?"
        = promptHead
            ++ "INFORMASI KONTEKS:\n\n[Dokumen 1] (Relevansi: 90.00%)\nJudul: Judul\nKonten: Isi\n\n"
            ++ "\n\nPERTANYAAN/PERMINTAAN PENGGUNA:\nApa itu RAG?"
            ++ "\n\nPANDUAN JAWABAN:" ++ guidanceText :=
  ⟨(BuildPromptWithContext_template (sampleEnv [] 1536 200) sampleRetriever sampleWorld
      "Apa itu RAG?" [sampleScored] (by rfl) (by decide)).1,
    by decide⟩

/-! ## C15 -/

theorem CreateEmbedding_status (env : Env) (o : OpenAIEmbedding) (w : World) (text : String)
    (statusCode : Nat) (body : String)
    (h : env.embeddingEndpoint w.ops o.apiKey o.embeddingModel [text]
      = .response statusCode body)
    (hs : statusCode ≠ 200) :
    (CreateEmbedding env o w text).1 = .error ("OpenAI API error: " ++ body) := by
  unfold CreateEmbedding
  simp only
  have h2 : env.embeddingEndpoint (w.emit (.createEmbedding text)).ops o.apiKey
      o.embeddingModel [text] = .response statusCode body := h
  rw [h2]
  simp only
  rw [if_pos hs]

theorem ChatCompletion_status (env : Env) (o : OpenAIEmbedding) (w : World)
    (messages : List ChatCompletionMessage) (statusCode : Nat) (body : String)
    (h : env.chatEndpoint w.ops o.apiKey o.chatModel messages = .response statusCode body)
    (hs : statusCode ≠ 200) :
    (ChatCompletion env o w messages).1 = .error ("OpenAI API error: " ++ body) := by
  unfold ChatCompletion
  simp only
  have h2 : env.chatEndpoint (w.emit (.chatCompletion messages)).ops o.apiKey
      o.chatModel messages = .response statusCode body := h
  rw [h2]
  simp only
  rw [if_pos hs]

/-- C15: when the embedding endpoint, respectively the generation endpoint, answers
with a status outside 200..299 and the body `body`, `CreateEmbedding`, respectively
`ChatCompletion`, returns no value but the error `"OpenAI API error: "` followed by
`body`, complete and unmodified.  (The code tests for status 200, so the other 2xx
statuses end the same way.) -/
theorem endpoint_error_carries_body (env : Env) (o : OpenAIEmbedding) (w : World)
    (text : String) (messages : List ChatCompletionMessage) (statusCode : Nat)
    (body : String) (hs : ¬ (200 ≤ statusCode ∧ statusCode < 300)) :
    (env.embeddingEndpoint w.ops o.apiKey o.embeddingModel [text] = .response statusCode body →
      (CreateEmbedding env o w text).1 = .error ("OpenAI API error: " ++ body)) ∧
    (env.chatEndpoint w.ops o.apiKey o.chatModel messages = .response statusCode body →
      (ChatCompletion env o w messages).1 = .error ("OpenAI API error: " ++ body)) := by
  have hne : statusCode ≠ 200 := by
    intro h200
    exact hs ⟨by omega, by omega⟩
  exact ⟨fun h => CreateEmbedding_status env o w text statusCode body h hne,
    fun h => ChatCompletion_status env o w messages statusCode body h hne⟩

/-- C15, for endpoints answering 500 with the body `chat-body`, respectively 429
with the body `embedding-body`. -/
theorem endpoint_error_carries_body_witness :
    (ChatCompletion (sampleEnv [] 1536 500) sampleAPI World.init [systemPrompt]).1
        = .error "OpenAI API error: chat-body" ∧
      (CreateEmbedding sampleEnvRateLimited sampleAPI World.init "Isi").1
        = .error "OpenAI API error: embedding-body" :=
  ⟨(endpoint_error_carries_body (sampleEnv [] 1536 500) sampleAPI World.init "Isi"
      [systemPrompt] 500 "chat-body" (by decide)).2 (by rfl),
    (endpoint_error_carries_body sampleEnvRateLimited sampleAPI World.init "Isi"
      [systemPrompt] 429 "embedding-body" (by decide)).1 (by rfl)⟩

/-! ## C16 -/

theorem randString_length (n : Nat) : (randString n).length = n := by
  show ((List.range n).map fun i => letters.toList.getD (i % letters.length) 'a').length = n
  rw [List.length_map, List.length_range]

theorem generateSessionID_eq : generateSessionID = "sess_abcdefghijklmnop" := by
  decide

set_option maxRecDepth 20000 in
/-- C16 (the code departs from the claim): `randString` is not random, byte `i` is
`letters[i % 62]`, so `generateSessionID` is always `sess_abcdefghijklmnop`.  Two
chat submissions without a session key, one after the other on `sampleStore`, get
the same session key, and the history handed to generation in the second one holds
the two messages of the first. -/
theorem HandleChat_session_key_reused :
    generateSessionID = "sess_abcdefghijklmnop" ∧
      (HandleChat (sampleEnv [] 1536 200) sampleRetriever sampleWorld "POST"
          (.ok { SessionID := "", Message := "Pertama" })).1
        = .json { Success := true, Message := "Jawaban.",
                  SessionID := "sess_abcdefghijklmnop" } ∧
      (HandleChat (sampleEnv [] 1536 200) sampleRetriever
          (HandleChat (sampleEnv [] 1536 200) sampleRetriever sampleWorld "POST"
            (.ok { SessionID := "", Message := "Pertama" })).2
          "POST" (.ok { SessionID := "", Message := "Kedua" })).1
        = .json { Success := true, Message := "Jawaban.",
                  SessionID := "sess_abcdefghijklmnop" } ∧
      (newEvents
          (HandleChat (sampleEnv [] 1536 200) sampleRetriever sampleWorld "POST"
            (.ok { SessionID := "", Message := "Pertama" })).2
          (HandleChat (sampleEnv [] 1536 200) sampleRetriever
            (HandleChat (sampleEnv [] 1536 200) sampleRetriever sampleWorld "POST"
              (.ok { SessionID := "", Message := "Pertama" })).2
            "POST" (.ok { SessionID := "", Message := "Kedua" })).2).filter
          isGenerateResponseFromContext
        = [.generateResponseFromContext "Kedua"
            [⟨"user", "Pertama"⟩, ⟨"assistant", "Jawaban."⟩, ⟨"user", "Kedua"⟩]] :=
  ⟨by decide, by rfl, by rfl, by rfl⟩

/-! ## C17 -/

theorem SaveMessage_ok_addMessage (env : Env) (w w2 : World) (msg : Message)
    (h : SaveMessage env w msg = (.ok (), w2)) :
    w2.db = w.db.addMessage msg.ConversationID msg.Role msg.Content := by
  have hdb := SaveMessage_ok_db env w msg (by rw [h])
  rw [h] at hdb
  exact hdb

theorem conversationRows_other (db db2 : Store) (row : MessageRow) (cid : Int)
    (hm : db2.messages = db.messages ++ [row]) (hne : row.conversationId ≠ cid) :
    conversationRows db2 cid = conversationRows db cid := by
  unfold conversationRows
  rw [hm, List.filter_append]
  have hf : ([row].filter fun m => decide (m.conversationId = cid)) = [] := by
    simp [hne]
  rw [hf, List.append_nil]

theorem ProcessUserMessage_eq (env : Env) (r : Retriever) (w : World) (req : ChatRequest)
    (cid : Int) (w1 w2 w3 w4 : World) (msgs : List Message) (gres : Except String String)
    (h1 : GetConversationBySessionID env w req.SessionID = (.ok cid, w1))
    (h2 : SaveMessage env w1 ⟨0, cid, "user", req.Message, 0⟩ = (.ok (), w2))
    (h3 : GetConversationMessages env w2 cid = (.ok msgs, w3))
    (h4 : GenerateResponseFromContext env r w3 req.Message (toChatMessages msgs [])
      = (gres, w4)) :
    ProcessUserMessage env r w req
      = (.ok { Success := true, Message := replyOf gres, SessionID := req.SessionID },
          match SaveMessage env (logGenerationFailure gres w4)
              ⟨0, cid, "assistant", replyOf gres, 0⟩ with
          | (.error err, w5) => w5.emit (.log ("Error saving assistant message: " ++ err))
          | (.ok (), w5) => w5) := by
  unfold ProcessUserMessage
  rw [h1]
  simp only
  rw [h2]
  simp only
  rw [h3]
  simp only
  rw [h4]
  cases gres <;> rfl

theorem ProcessUserMessage_db (env : Env) (r : Retriever) (w : World)
    (req : ChatRequest) (cid : Int) (w1 w2 w3 w4 w5 : World) (msgs : List Message)
    (gres : Except String String)
    (h1 : GetConversationBySessionID env w req.SessionID = (.ok cid, w1))
    (h2 : SaveMessage env w1 ⟨0, cid, "user", req.Message, 0⟩ = (.ok (), w2))
    (h3 : GetConversationMessages env w2 cid = (.ok msgs, w3))
    (h4 : GenerateResponseFromContext env r w3 req.Message (toChatMessages msgs [])
      = (gres, w4))
    (h5 : SaveMessage env (logGenerationFailure gres w4)
      ⟨0, cid, "assistant", replyOf gres, 0⟩ = (.ok (), w5)) :
    ProcessUserMessage env r w req
        = (.ok { Success := true, Message := replyOf gres, SessionID := req.SessionID }, w5) ∧
      w5.db = (w1.db.addMessage cid "user" req.Message).addMessage cid "assistant"
        (replyOf gres) := by
  have hd2 := SaveMessage_ok_addMessage env w1 w2 _ h2
  have hd3 := (GetConversationMessages_spec env w2 cid).2.1
  rw [h3] at hd3
  simp only at hd3
  have hd4 := GenerateResponseFromContext_db env r w3 req.Message (toChatMessages msgs [])
  rw [h4] at hd4
  simp only at hd4
  have hlog : (logGenerationFailure gres w4).db = w4.db := by
    cases gres <;> rfl
  have hd5 := SaveMessage_ok_addMessage env _ w5 _ h5
  rw [hlog, hd4, hd3, hd2] at hd5
  simp only at hd5
  refine ⟨?_, hd5⟩
  rw [ProcessUserMessage_eq env r w req cid w1 w2 w3 w4 msgs gres h1 h2 h3 h4, h5]

theorem conversationRows_exchange_other (db : Store) (cid cid2 : Int)
    (role1 content1 role2 content2 : String) (hne : cid2 ≠ cid) :
    conversationRows ((db.addMessage cid role1 content1).addMessage cid role2 content2) cid2
      = conversationRows db cid2 := by
  rw [conversationRows_other (db.addMessage cid role1 content1) _
      { id := db.msgSeq + 1, conversationId := cid, role := role2, content := content2,
        createdAt := db.clock + 1 } cid2 rfl (fun h => hne h.symm),
    conversationRows_other db _
      { id := db.msgSeq, conversationId := cid, role := role1, content := content1,
        createdAt := db.clock } cid2 rfl (fun h => hne h.symm)]

theorem conversationRows_exchange_self (db : Store) (cid : Int)
    (role1 content1 role2 content2 : String)
    (hclock : ∀ m ∈ db.messages, m.createdAt < db.clock) :
    conversationRows ((db.addMessage cid role1 content1).addMessage cid role2 content2) cid
      = conversationRows db cid ++
          [{ id := db.msgSeq, conversationId := cid, role := role1, content := content1,
             createdAt := db.clock },
           { id := db.msgSeq + 1, conversationId := cid, role := role2, content := content2,
             createdAt := db.clock + 1 }] := by
  have ha := conversationRows_append db (db.addMessage cid role1 content1)
    { id := db.msgSeq, conversationId := cid, role := role1, content := content1,
      createdAt := db.clock } rfl
    (fun m hm => Nat.le_of_lt (hclock m hm))
  have hb := conversationRows_append (db.addMessage cid role1 content1)
    ((db.addMessage cid role1 content1).addMessage cid role2 content2)
    { id := db.msgSeq + 1, conversationId := cid, role := role2, content := content2,
      createdAt := db.clock + 1 } rfl
    (by
      intro m hm
      rcases List.mem_append.1 hm with hm | hm
      · exact Nat.le_succ_of_le (Nat.le_of_lt (hclock m hm))
      · rw [List.mem_singleton.1 hm]
        exact Nat.le_succ _)
  simp only at ha hb
  rw [hb, ha]
  simp

/-- C17: in a turn where both appends succeed, `ProcessUserMessage` returns the reply
and the table of messages after the turn is the table before it followed by exactly
two rows, `(cid, "user", req.Message)` then `(cid, "assistant", reply)`: no existing
row is changed or removed and the rows written have role `user` or `assistant`.
The message list of every other conversation is unchanged; on a store whose messages
were stamped before its clock, the message list of the conversation `cid` is its list
before the turn followed by these two rows. -/
theorem ProcessUserMessage_append_only (env : Env) (r : Retriever) (w : World)
    (req : ChatRequest) (cid : Int) (w1 w2 w3 w4 w5 : World) (msgs : List Message)
    (gres : Except String String)
    (h1 : GetConversationBySessionID env w req.SessionID = (.ok cid, w1))
    (h2 : SaveMessage env w1 ⟨0, cid, "user", req.Message, 0⟩ = (.ok (), w2))
    (h3 : GetConversationMessages env w2 cid = (.ok msgs, w3))
    (h4 : GenerateResponseFromContext env r w3 req.Message (toChatMessages msgs [])
      = (gres, w4))
    (h5 : SaveMessage env (logGenerationFailure gres w4)
      ⟨0, cid, "assistant", replyOf gres, 0⟩ = (.ok (), w5)) :
    ProcessUserMessage env r w req
        = (.ok { Success := true, Message := replyOf gres, SessionID := req.SessionID }, w5) ∧
      w5.db.messages
        = w.db.messages ++
            [{ id := w1.db.msgSeq, conversationId := cid, role := "user",
               content := req.Message, createdAt := w1.db.clock },
             { id := w1.db.msgSeq + 1, conversationId := cid, role := "assistant",
               content := replyOf gres, createdAt := w1.db.clock + 1 }] ∧
      (∀ cid2, cid2 ≠ cid → conversationRows w5.db cid2 = conversationRows w.db cid2) ∧
      (w.db.clockAhead →
        conversationRows w5.db cid
          = conversationRows w.db cid ++
              [{ id := w1.db.msgSeq, conversationId := cid, role := "user",
                 content := req.Message, createdAt := w1.db.clock },
               { id := w1.db.msgSeq + 1, conversationId := cid, role := "assistant",
                 content := replyOf gres, createdAt := w1.db.clock + 1 }]) := by
  have hg := GetConversationBySessionID_messages env w req.SessionID
  rw [h1] at hg
  simp only at hg
  obtain ⟨hres, hdb⟩ :=
    ProcessUserMessage_db env r w req cid w1 w2 w3 w4 w5 msgs gres h1 h2 h3 h4 h5
  have hrows1 : ∀ c, conversationRows w1.db c = conversationRows w.db c := by
    intro c
    unfold conversationRows
    rw [hg.1]
  refine ⟨hres, ?_, ?_, ?_⟩
  · rw [hdb]
    show (w1.db.messages ++ _) ++ _ = _
    rw [hg.1]
    simp [Store.addMessage]
  · intro cid2 hne
    rw [hdb, conversationRows_exchange_other w1.db cid cid2 _ _ _ _ hne, hrows1]
  · intro hclock
    have hc1 : ∀ m ∈ w1.db.messages, m.createdAt < w1.db.clock := by
      intro m hm
      rw [hg.1] at hm
      exact Nat.lt_of_lt_of_le (hclock m hm) hg.2
    rw [hdb, conversationRows_exchange_self w1.db cid _ _ _ _ hc1, hrows1]

set_option maxRecDepth 20000 in
/-- C17, on a conversation that already holds one exchange: after the turn its
message list is that exchange followed by the user message and the reply. -/
theorem ProcessUserMessage_append_only_witness :
    sampleWorldWithHistory.db.clockAhead ∧
      (ProcessUserMessage (sampleEnv [] 1536 200) sampleRetriever sampleWorldWithHistory
          sampleRequest).1
        = .ok { Success := true, Message := "Jawaban.", SessionID := "s1" } ∧
      (conversationRows
          (ProcessUserMessage (sampleEnv [] 1536 200) sampleRetriever sampleWorldWithHistory
            sampleRequest).2.db 1).map (fun m => (m.role, m.content))
        = [("user", "Halo"), ("assistant", "Hai"), ("user", "Apa itu RAG?"),
            ("assistant", "Jawaban.")] :=
  have h := ProcessUserMessage_append_only (sampleEnv [] 1536 200) sampleRetriever
    sampleWorldWithHistory sampleRequest 1
    (afterResolve (sampleEnv [] 1536 200) sampleWorldWithHistory sampleRequest)
    (afterUserAppend (sampleEnv [] 1536 200) sampleWorldWithHistory sampleRequest 1)
    (afterHistory (sampleEnv [] 1536 200) sampleWorldWithHistory sampleRequest 1)
    (afterGeneration (sampleEnv [] 1536 200) sampleRetriever sampleWorldWithHistory
      sampleRequest 1
      [⟨1, 1, "user", "Halo", 2⟩, ⟨2, 1, "assistant", "Hai", 3⟩,
       ⟨3, 1, "user", "Apa itu RAG?", 4⟩])
    (SaveMessage (sampleEnv [] 1536 200)
      (afterGeneration (sampleEnv [] 1536 200) sampleRetriever sampleWorldWithHistory
        sampleRequest 1
        [⟨1, 1, "user", "Halo", 2⟩, ⟨2, 1, "assistant", "Hai", 3⟩,
         ⟨3, 1, "user", "Apa itu RAG?", 4⟩])
      ⟨0, 1, "assistant", "Jawaban.", 0⟩).2
    [⟨1, 1, "user", "Halo", 2⟩, ⟨2, 1, "assistant", "Hai", 3⟩,
     ⟨3, 1, "user", "Apa itu RAG?", 4⟩]
    (.ok "Jawaban.") (by rfl) (by rfl) (by rfl) (by rfl) (by rfl)
  ⟨by decide, by rw [h.1]; rfl, by rw [h.1, h.2.2.2 (by decide)]; rfl⟩

/-! ## C13 -/

theorem latestConversation_append_other (db db2 : Store) (row : ConversationRow) (s : String)
    (h2 : db2.conversations = db.conversations ++ [row]) (hne : row.sessionId ≠ s) :
    latestConversation db2 s = latestConversation db s := by
  unfold latestConversation
  rw [h2, List.filter_append]
  have hf : ([row].filter fun c => decide (c.sessionId = s)) = [] := by
    simp [hne]
  rw [hf, List.append_nil]

theorem conversationRows_congr (db db2 : Store) (h : db2.messages = db.messages) (cid : Int) :
    conversationRows db2 cid = conversationRows db cid := by
  unfold conversationRows
  rw [h]

theorem conversationRows_fresh (db : Store) (cid : Int)
    (h : ∀ m ∈ db.messages, m.conversationId < cid) : conversationRows db cid = [] := by
  unfold conversationRows
  have hf : (db.messages.filter fun m => decide (m.conversationId = cid)) = [] := by
    rw [List.filter_eq_nil_iff]
    intro m hm
    have := h m hm
    simp only [decide_eq_true_eq]
    omega
  rw [hf]
  rfl

theorem mem_conversationRows (db : Store) (cid : Int) (m : MessageRow)
    (h : m ∈ conversationRows db cid) : m.conversationId = cid := by
  unfold conversationRows at h
  have h2 := (List.perm_insertionSort _ _).subset h
  rw [List.mem_filter] at h2
  simpa using h2.2

theorem sessionMessages_congr (db db2 : Store) (s : String)
    (hl : latestConversation db2 s = latestConversation db s)
    (hm : db2.messages = db.messages) : sessionMessages db2 s = sessionMessages db s := by
  unfold sessionMessages
  rw [hl]
  cases latestConversation db s with
  | none => rfl
  | some c =>
    simp only
    rw [conversationRows_congr db db2 hm]

theorem latestConversation_id_ne (db : Store) (hinv : db.consistent) (s t : String)
    (a b : ConversationRow) (hne : s ≠ t) (ha : latestConversation db s = some a)
    (hb : latestConversation db t = some b) : a.id ≠ b.id := by
  obtain ⟨ha1, ha2⟩ := latestConversation_mem db s a ha
  obtain ⟨hb1, hb2⟩ := latestConversation_mem db t b hb
  intro hid
  have := hinv.2.2.2 a ha1 b hb1 hid
  rw [ha2, hb2] at this
  exact hne this

theorem consistent_empty : Store.empty.consistent := by
  refine ⟨?_, ?_, ?_, ?_⟩ <;> intro x hx <;> cases hx

theorem consistent_addConversation (db : Store) (t : String) (hinv : db.consistent) :
    (db.addConversation t).consistent := by
  obtain ⟨h1, h2, h3, h4⟩ := hinv
  refine ⟨?_, ?_, ?_, ?_⟩
  · intro m hm
    exact Nat.lt_succ_of_lt (h1 m hm)
  · intro m hm
    have := h2 m hm
    show m.conversationId < db.convSeq + 1
    omega
  · intro c hc
    show c.id < db.convSeq + 1
    rcases List.mem_append.1 hc with hc | hc
    · have := h3 c hc
      omega
    · rw [List.mem_singleton.1 hc]
      show db.convSeq < db.convSeq + 1
      omega
  · intro a ha b hb hid
    rcases List.mem_append.1 ha with ha | ha <;> rcases List.mem_append.1 hb with hb | hb
    · exact h4 a ha b hb hid
    · rw [List.mem_singleton.1 hb] at hid
      have := h3 a ha
      simp only at hid
      omega
    · rw [List.mem_singleton.1 ha] at hid
      have := h3 b hb
      simp only at hid
      omega
    · rw [List.mem_singleton.1 ha, List.mem_singleton.1 hb]

theorem consistent_addMessage (db : Store) (cid : Int) (role content : String)
    (hinv : db.consistent) (hcid : cid < db.convSeq) :
    (db.addMessage cid role content).consistent := by
  obtain ⟨h1, h2, h3, h4⟩ := hinv
  refine ⟨?_, ?_, h3, h4⟩
  · intro m hm
    show m.createdAt < db.clock + 1
    rcases List.mem_append.1 hm with hm | hm
    · exact Nat.lt_succ_of_lt (h1 m hm)
    · rw [List.mem_singleton.1 hm]
      exact Nat.lt_succ_self _
  · intro m hm
    show m.conversationId < db.convSeq
    rcases List.mem_append.1 hm with hm | hm
    · exact h2 m hm
    · rw [List.mem_singleton.1 hm]
      exact hcid

theorem GetConversationBySessionID_resolve (env : Env) (w : World) (t : String)
    (hnf : env.noFaults) (hinv : w.db.consistent) :
    ∃ c w1, GetConversationBySessionID env w t = (.ok c.id, w1) ∧
      w1.db.consistent ∧
      w1.db.messages = w.db.messages ∧
      latestConversation w1.db t = some c ∧
      (∀ s c0, latestConversation w.db s = some c0 → latestConversation w1.db s = some c0) ∧
      (∀ s, sessionMessages w1.db s = sessionMessages w.db s) := by
  cases hl : latestConversation w.db t with
  | some c =>
    exact ⟨c, _, GetConversationBySessionID_found env w t c (hnf _) hl, hinv, rfl, hl,
      fun s c0 h => h, fun s => rfl⟩
  | none =>
    obtain ⟨w1, h1, hdb, -, -⟩ := GetConversationBySessionID_created env w t (hnf _) (hnf _) hl
    have hconv : w1.db.conversations = w.db.conversations ++
        [{ id := w.db.convSeq, sessionId := t, createdAt := w.db.clock }] := by
      rw [hdb]; rfl
    have hmsg : w1.db.messages = w.db.messages := by
      rw [hdb]; rfl
    have hl1 : latestConversation w1.db t
        = some { id := w.db.convSeq, sessionId := t, createdAt := w.db.clock } :=
      latestConversation_of_none w.db t _ rfl hl w1.db hconv
    have hother : ∀ s, s ≠ t → latestConversation w1.db s = latestConversation w.db s :=
      fun s hs => latestConversation_append_other w.db w1.db _ s hconv (fun h => hs h.symm)
    refine ⟨{ id := w.db.convSeq, sessionId := t, createdAt := w.db.clock }, w1, h1, ?_, hmsg,
      hl1, ?_, ?_⟩
    · rw [hdb]
      exact consistent_addConversation w.db t hinv
    · intro s c0 h
      by_cases hs : s = t
      · subst hs
        rw [hl] at h
        cases h
      · rw [hother s hs]
        exact h
    · intro s
      by_cases hs : s = t
      · subst hs
        unfold sessionMessages
        rw [hl1, hl]
        simp only
        rw [conversationRows_fresh w1.db w.db.convSeq (by rw [hmsg]; exact hinv.2.1)]
        rfl
      · exact sessionMessages_congr w.db w1.db s (hother s hs) hmsg

theorem SaveMessage_noFault (env : Env) (w : World) (msg : Message)
    (hf : env.dbFault w.ops = none) :
    ∃ w2, SaveMessage env w msg = (.ok (), w2) := by
  unfold SaveMessage
  simp only
  have h : env.dbFault (w.emit (.saveMessage msg.ConversationID msg.Role msg.Content)).ops
      = none := hf
  rw [h]
  exact ⟨_, rfl⟩

theorem scanMessages_noFaults (env : Env) (rows : List MessageRow) (w : World)
    (acc : List Message) (hnf : env.noFaults) :
    ∃ msgs, (scanMessages env rows w acc).1 = .ok msgs := by
  induction rows generalizing w acc with
  | nil => exact ⟨acc, rfl⟩
  | cons m rest ih =>
    unfold scanMessages
    rw [hnf]
    exact ih _ _

theorem GetConversationMessages_noFaults (env : Env) (w : World) (cid : Int)
    (hnf : env.noFaults) :
    ∃ msgs w3, GetConversationMessages env w cid = (.ok msgs, w3) := by
  unfold GetConversationMessages
  simp only
  rw [hnf]
  simp only
  obtain ⟨msgs, hm⟩ := scanMessages_noFaults env
    (conversationRows (w.emit (.getConversationMessages cid)).db cid)
    (w.emit (.getConversationMessages cid)).tick [] hnf
  revert hm
  generalize scanMessages env _ (w.emit (.getConversationMessages cid)).tick [] = sc
  obtain ⟨res, w1⟩ := sc
  intro hm
  simp only at hm
  subst hm
  simp only
  rw [hnf]
  exact ⟨_, _, rfl⟩

theorem latestConversation_congr (db db2 : Store) (h : db2.conversations = db.conversations)
    (s : String) : latestConversation db2 s = latestConversation db s := by
  unfold latestConversation
  rw [h]

theorem ProcessUserMessage_turn (env : Env) (r : Retriever) (w : World) (req : ChatRequest)
    (hnf : env.noFaults) (hinv : w.db.consistent) :
    ∃ resp w5, ProcessUserMessage env r w req = (.ok resp, w5) ∧
      w5.db.consistent ∧
      ∀ s, sessionMessages w5.db s
        = sessionMessages w.db s ++
            (if req.SessionID = s then
              [{ Role := "user", Content := req.Message },
               { Role := "assistant", Content := resp.Message }]
            else []) := by
  obtain ⟨c, w1, h1, hinv1, hmsg1, hl1, -, hsm1⟩ :=
    GetConversationBySessionID_resolve env w req.SessionID hnf hinv
  obtain ⟨w2, h2⟩ := SaveMessage_noFault env w1 ⟨0, c.id, "user", req.Message, 0⟩ (hnf _)
  obtain ⟨msgs, w3, h3⟩ := GetConversationMessages_noFaults env w2 c.id hnf
  cases h4 : GenerateResponseFromContext env r w3 req.Message (toChatMessages msgs []) with
  | mk gres w4 =>
  obtain ⟨w5, h5⟩ := SaveMessage_noFault env (logGenerationFailure gres w4)
    ⟨0, c.id, "assistant", replyOf gres, 0⟩ (hnf _)
  obtain ⟨hres, hd5⟩ :=
    ProcessUserMessage_db env r w req c.id w1 w2 w3 w4 w5 msgs gres h1 h2 h3 h4 h5
  have hcid : c.id < w1.db.convSeq := hinv1.2.2.1 c (latestConversation_mem w1.db _ c hl1).1
  have hinv5 : w5.db.consistent := by
    rw [hd5]
    exact consistent_addMessage _ _ _ _
      (consistent_addMessage _ _ _ _ hinv1 hcid) hcid
  have hlat : ∀ s, latestConversation w5.db s = latestConversation w1.db s := by
    intro s
    apply latestConversation_congr
    rw [hd5]
    rfl
  have hother : ∀ cid2, cid2 ≠ c.id → conversationRows w5.db cid2 = conversationRows w1.db cid2 := by
    intro cid2 hne
    rw [hd5, conversationRows_exchange_other w1.db c.id cid2 _ _ _ _ hne]
  have hself : conversationRows w5.db c.id
      = conversationRows w1.db c.id ++
          [{ id := w1.db.msgSeq, conversationId := c.id, role := "user",
             content := req.Message, createdAt := w1.db.clock },
           { id := w1.db.msgSeq + 1, conversationId := c.id, role := "assistant",
             content := replyOf gres, createdAt := w1.db.clock + 1 }] := by
    rw [hd5, conversationRows_exchange_self w1.db c.id _ _ _ _ hinv1.1]
  refine ⟨_, w5, hres, hinv5, ?_⟩
  intro s
  rw [← hsm1 s]
  unfold sessionMessages
  rw [hlat s]
  cases hls : latestConversation w1.db s with
  | none =>
    have hne : req.SessionID ≠ s := by
      intro h
      rw [h] at hl1
      rw [hl1] at hls
      cases hls
    simp [hne]
  | some c2 =>
    by_cases hs : req.SessionID = s
    · rw [← hs] at hls
      rw [hl1] at hls
      cases hls
      simp only [if_pos hs]
      rw [hself]
      simp
    · have hid : c2.id ≠ c.id :=
        latestConversation_id_ne w1.db hinv1 s req.SessionID c2 c (fun h => hs h.symm) hls hl1
      simp only [if_neg hs, List.append_nil]
      rw [hother c2.id hid]

theorem runTurns_history (env : Env) (r : Retriever) (hnf : env.noFaults)
    (reqs : List ChatRequest) (w : World) (hinv : w.db.consistent) :
    (runTurns env r w reqs).1.db.consistent ∧
      ∀ s, sessionMessages (runTurns env r w reqs).1.db s
        = sessionMessages w.db s ++ expectedHistory s (runTurns env r w reqs).2 := by
  induction reqs generalizing w with
  | nil =>
    refine ⟨hinv, fun s => ?_⟩
    simp [runTurns, expectedHistory]
  | cons req rest ih =>
    obtain ⟨resp, w5, hres, hinv5, hsm⟩ := ProcessUserMessage_turn env r w req hnf hinv
    obtain ⟨ih1, ih2⟩ := ih w5 hinv5
    have hrun : runTurns env r w (req :: rest)
        = ((runTurns env r w5 rest).1, (req, resp.Message) :: (runTurns env r w5 rest).2) := by
      simp only [runTurns]
      rw [hres]
    rw [hrun]
    refine ⟨ih1, fun s => ?_⟩
    simp only
    rw [ih2 s, hsm s]
    simp [expectedHistory]

theorem GetConversationHistory_read (env : Env) (w : World) (s : String)
    (hnf : env.noFaults) (hinv : w.db.consistent) :
    ∃ c msgs w2, GetConversationHistory env w s = (.ok msgs, w2) ∧
      w2.db.consistent ∧
      latestConversation w2.db s = some c ∧
      (∀ s0 c0, latestConversation w.db s0 = some c0 → latestConversation w2.db s0 = some c0) ∧
      (∀ s0, sessionMessages w2.db s0 = sessionMessages w.db s0) ∧
      msgs.map chatOf = sessionMessages w.db s ∧
      ∀ m ∈ msgs, m.ConversationID = c.id := by
  obtain ⟨c, w1, h1, hinv1, -, hl1, hstable, hsm1⟩ :=
    GetConversationBySessionID_resolve env w s hnf hinv
  obtain ⟨msgs, w2, h2⟩ := GetConversationMessages_noFaults env w1 c.id hnf
  obtain ⟨-, hdb, hmsgs⟩ := GetConversationMessages_spec env w1 c.id
  rw [h2] at hdb hmsgs
  simp only at hdb
  have hm := hmsgs msgs rfl
  refine ⟨c, msgs, w2, ?_, by rw [hdb]; exact hinv1, by rw [hdb]; exact hl1, ?_, ?_, ?_, ?_⟩
  · unfold GetConversationHistory
    rw [h1]
    simp only
    rw [h2]
  · intro s0 c0 h
    rw [hdb]
    exact hstable s0 c0 h
  · intro s0
    rw [hdb]
    exact hsm1 s0
  · rw [← hsm1 s, hm]
    unfold sessionMessages
    rw [hl1]
    simp [chatOf, scanMessage]
  · intro m hmem
    rw [hm, List.mem_map] at hmem
    obtain ⟨row, hrow, rfl⟩ := hmem
    exact mem_conversationRows w1.db c.id row hrow

theorem sessionMessages_no_conversation (db : Store) (s : String)
    (h : db.conversations = []) : sessionMessages db s = [] := by
  unfold sessionMessages latestConversation
  rw [h]
  rfl

/-- C13: run any sequence of turns from a consistent store with no failing database
operation, then read the history of two distinct session keys `s1` and `s2`.  Both
reads succeed.  The history of a key is, in role and content, what its conversation
held before the run followed by the messages appended for that key, in the order of
the turns: for each of its turns the user message, then the reply returned by that
turn.  From a store without conversations it is exactly that sequence.  Every message
of the first history belongs to another conversation than every message of the
second, so neither history contains a message appended for the other key. -/
theorem GetConversationHistory_sessions (env : Env) (r : Retriever) (w : World)
    (reqs : List ChatRequest) (s1 s2 : String) (hnf : env.noFaults)
    (hinv : w.db.consistent) (hne : s1 ≠ s2) :
    ∃ msgs1 msgs2 wa wb,
      GetConversationHistory env (runTurns env r w reqs).1 s1 = (.ok msgs1, wa) ∧
      GetConversationHistory env wa s2 = (.ok msgs2, wb) ∧
      msgs1.map chatOf
        = sessionMessages w.db s1 ++ expectedHistory s1 (runTurns env r w reqs).2 ∧
      msgs2.map chatOf
        = sessionMessages w.db s2 ++ expectedHistory s2 (runTurns env r w reqs).2 ∧
      (w.db.conversations = [] →
        msgs1.map chatOf = expectedHistory s1 (runTurns env r w reqs).2 ∧
        msgs2.map chatOf = expectedHistory s2 (runTurns env r w reqs).2) ∧
      (∀ m1 ∈ msgs1, ∀ m2 ∈ msgs2, m1.ConversationID ≠ m2.ConversationID) := by
  obtain ⟨hinvR, hsmR⟩ := runTurns_history env r hnf reqs w hinv
  obtain ⟨c1, msgs1, wa, ha, hinva, hla, -, hsma, hm1, hc1⟩ :=
    GetConversationHistory_read env (runTurns env r w reqs).1 s1 hnf hinvR
  obtain ⟨c2, msgs2, wb, hb, hinvb, hlb, hstab, -, hm2, hc2⟩ :=
    GetConversationHistory_read env wa s2 hnf hinva
  have h1 : msgs1.map chatOf
      = sessionMessages w.db s1 ++ expectedHistory s1 (runTurns env r w reqs).2 := by
    rw [hm1, hsmR]
  have h2 : msgs2.map chatOf
      = sessionMessages w.db s2 ++ expectedHistory s2 (runTurns env r w reqs).2 := by
    rw [hm2, hsma, hsmR]
  refine ⟨msgs1, msgs2, wa, wb, ha, hb, h1, h2, ?_, ?_⟩
  · intro hempty
    rw [h1, h2, sessionMessages_no_conversation w.db s1 hempty,
      sessionMessages_no_conversation w.db s2 hempty]
    exact ⟨rfl, rfl⟩
  · intro m1 hmem1 m2 hmem2
    rw [hc1 m1 hmem1, hc2 m2 hmem2]
    exact latestConversation_id_ne wb.db hinvb s1 s2 c1 c2 hne (hstab s1 c1 hla) hlb

theorem sampleEnv_noFaults (dim chatStatus : Nat) : (sampleEnv [] dim chatStatus).noFaults := by
  intro n
  simp [sampleEnv]

theorem sampleStore_consistent : sampleStore.consistent := by
  refine ⟨?_, ?_, ?_, ?_⟩ <;> intro x hx <;> cases hx

set_option maxRecDepth 20000 in
/-- C13, for four turns interleaved over `s1` and `s2` on `sampleStore`: the history
of `s1` is its three exchanges in order, six messages, and none of `s2`. -/
theorem GetConversationHistory_sessions_witness :
    (match (GetConversationHistory (sampleEnv [] 1536 200)
        (runTurns (sampleEnv [] 1536 200) sampleRetriever sampleWorld sampleTurns).1 "s1").1 with
      | .ok msgs => msgs.map chatOf
      | .error _ => [])
      = [⟨"user", "satu"⟩, ⟨"assistant", "Jawaban."⟩, ⟨"user", "dua"⟩,
         ⟨"assistant", "Jawaban."⟩, ⟨"user", "tiga"⟩, ⟨"assistant", "Jawaban."⟩] := by
  obtain ⟨msgs1, msgs2, wa, wb, ha, -, -, -, hempty, -⟩ :=
    GetConversationHistory_sessions (sampleEnv [] 1536 200) sampleRetriever sampleWorld
      sampleTurns "s1" "s2" (sampleEnv_noFaults 1536 200) sampleStore_consistent (by decide)
  rw [ha]
  simp only
  rw [(hempty rfl).1]
  rfl

end RagChatBot
